import Mathlib

/-!
Shallow embedding of `bed_to_tabix/cli.py`.

The program is a command-line entry point: `parse_arguments` normalizes the
docopt argument mapping (version short-circuit, thread-count conversion,
output-path derivation and suffixing, tool-path environment fallbacks,
overwrite guard) and `main` invokes the pipeline inside a
try/except/finally block.

Python values are modelled by `Value`; the docopt mapping by an association
list `Dict`; effectful code by `Res`, which records emitted events (prints,
log lines, pipeline/cleanup invocations) together with an `Outcome`
(normal value, `sys.exit(code)`, or a raised exception).
-/

/-- Python runtime values that appear in the docopt argument mapping. -/
inductive Value : Type
  | pyNone : Value
  | bool (b : Bool) : Value
  | str (s : String) : Value
  | strList (l : List String) : Value
  | int (n : Int) : Value
deriving DecidableEq

/-- Python truthiness of a `Value` (`if arguments[k]:`). -/
def truthy : Value → Bool
  | .pyNone => false
  | .bool b => b
  | .str s => !(s == "")
  | .strList l => !l.isEmpty
  | .int n => !(n == 0)

/-- The keyword arguments `main` passes to `run_pipeline`, in source order. -/
structure PipelineArgs : Type where
  bedfiles : Value
  threads : Value
  outfile : Value
  gzip_output : Bool
  dry_run : Value
  path_to_bcftools : Value
  path_to_java : Value
  path_to_tabix : Value
  path_to_gatk3 : Value
  path_to_bgzip : Value
  path_to_reference_fasta : Value
deriving DecidableEq

/-- Observable actions of the program: prints, log records, and the two
external collaborator calls (`run_pipeline`, `cleanup_temp_files`). -/
inductive Event : Type
  | print (s : String) : Event
  | logWarning (s : String) : Event
  | logInfo (s : String) : Event
  | runPipeline (args : PipelineArgs) : Event
  | cleanupTempFiles : Event
deriving DecidableEq

/-- Python exceptions relevant to this program. -/
inductive PyExn : Type
  | keyError (k : String) : PyExn
  | valueError (s : String) : PyExn
  | typeError (s : String) : PyExn
  | keyboardInterrupt : PyExn
  | calledProcessError (returncode : Int) (cmd : String) : PyExn
deriving DecidableEq

/-- How a fragment of the program finishes: normally, via `sys.exit(code)`
(`code = none` for a bare `sys.exit()`), or with an uncaught exception. -/
inductive Outcome (α : Type) : Type
  | ok (a : α) : Outcome α
  | exited (code : Option Int) : Outcome α
  | raised (e : PyExn) : Outcome α
deriving DecidableEq

/-- Result of running a program fragment: the events it emitted, in order,
and its outcome. -/
structure Res (α : Type) : Type where
  events : List Event
  out : Outcome α
deriving DecidableEq

/-- Sequencing: run `x`; if it finishes normally, continue with `f`.
Events accumulate; exits and exceptions cut the continuation short. -/
def Res.bind {α β : Type} (x : Res α) (f : α → Res β) : Res β :=
  match x.out with
  | .ok a => ⟨x.events ++ (f a).events, (f a).out⟩
  | .exited c => ⟨x.events, .exited c⟩
  | .raised e => ⟨x.events, .raised e⟩

/-- A fragment that just returns a value. -/
def Res.ret {α : Type} (a : α) : Res α := ⟨[], .ok a⟩

/-- Python print: `print(s)`. -/
def pyPrint (s : String) : Res Unit := ⟨[.print s], .ok ()⟩

/-- Logging call `logger.warning(s)`. -/
def logWarn (s : String) : Res Unit := ⟨[.logWarning s], .ok ()⟩

/-- Logging call `logger.info(s)`. -/
def logInf (s : String) : Res Unit := ⟨[.logInfo s], .ok ()⟩

/-- A bare `sys.exit()` call: SystemExit with no exit-code argument. -/
def sysExit {α : Type} : Res α := ⟨[], .exited none⟩

/-- The docopt argument mapping: a Python dict from option name to value. -/
abbrev Dict : Type := List (String × Value)

/-- First value stored under a key, if any. -/
def Dict.get? : Dict → String → Option Value
  | [], _ => none
  | (k, v) :: rest, key => if k == key then some v else Dict.get? rest key

/-- Membership test `key in dict`. -/
def Dict.hasKey (d : Dict) (k : String) : Bool := (d.get? k).isSome

/-- Assignment `dict[k] = v`: replace the value in place, or append a new entry. -/
def Dict.insert : Dict → String → Value → Dict
  | [], k, v => [(k, v)]
  | (k0, v0) :: rest, k, v =>
    if k0 == k then (k, v) :: rest else (k0, v0) :: Dict.insert rest k v

/-- Subscript access `dict[k]`: a missing key raises `KeyError`. -/
def getItem (d : Dict) (k : String) : Res Value :=
  match d.get? k with
  | some v => Res.ret v
  | none => ⟨[], .raised (.keyError k)⟩

/-- Python `str.upper()` (ASCII, as used on `path_to_<tool>` names). -/
def pyUpper (s : String) : String := String.mk (s.data.map Char.toUpper)

/-- Python `str.replace` with single-character pattern, as in `replace('_', '-')`. -/
def dashify (s : String) : String :=
  String.mk (s.data.map (fun c => if c = '_' then '-' else c))

/-- Helper for `os.path.basename`: keep the segment after the last slash. -/
def basenameAux : List Char → List Char → List Char
  | acc, [] => acc
  | _, '/' :: cs => basenameAux [] cs
  | acc, c :: cs => basenameAux (acc ++ [c]) cs

/-- Python `os.path.basename` (POSIX). -/
def pyBasename (s : String) : String := String.mk (basenameAux [] s.data)

/-- Python `str.endswith(t)`. -/
def pyEndsWith (s t : String) : Bool := t.data.isSuffixOf s.data

/-- Python `str.startswith(t)`. -/
def pyStartsWith (s t : String) : Bool := t.data.isPrefixOf s.data

/-- Python `os.path.join(a, b)` (POSIX, two components). -/
def pyJoin (a b : String) : String :=
  if pyStartsWith b "/" then b
  else if a == "" then b
  else if pyEndsWith a "/" then a ++ b
  else a ++ "/" ++ b

/-- Fuel-indexed core of `str.replace`: leftmost, non-overlapping
replacement of every occurrence of `pat` by `rep`. -/
def replaceAux (pat rep : List Char) : Nat → List Char → List Char
  | _, [] => []
  | 0, s => s
  | fuel + 1, c :: cs =>
    if pat.isPrefixOf (c :: cs) then
      rep ++ replaceAux pat rep fuel (List.drop pat.length (c :: cs))
    else c :: replaceAux pat rep fuel cs

/-- Python `str.replace(pat, rep)` for a non-empty pattern. -/
def pyReplace (s pat rep : String) : String :=
  String.mk (replaceAux pat.data rep.data s.data.length s.data)

/-- Digits to a natural number, most significant first. -/
def digitsVal (cs : List Char) : Nat :=
  cs.foldl (fun n c => 10 * n + (c.toNat - 48)) 0

/-- Characters Python's `int()` strips around a numeral, within the ASCII
range: the bytes 9 to 13 (tab through carriage return) and 32 (space).
CPython does not strip the bytes 28 to 31 here even though `str.isspace`
accepts them. -/
def pyIsSpace (c : Char) : Bool :=
  decide ((9 ≤ c.toNat ∧ c.toNat ≤ 13) ∨ c.toNat = 32)

/-- Tail of a PEP 515 digit part: digits, with a single underscore allowed
only between two digits. -/
def digitsTail : List Char → Bool
  | [] => true
  | '_' :: c :: rest => c.isDigit && digitsTail rest
  | ['_'] => false
  | c :: rest => c.isDigit && digitsTail rest

/-- A PEP 515 digit part, `digit (["_"] digit)*`: non-empty, no leading or
trailing underscore, no two underscores in a row. -/
def digitGroups : List Char → Bool
  | [] => false
  | c :: rest => c.isDigit && digitsTail rest

/-- Parse an unsigned PEP 515 digit part, ignoring grouping underscores. -/
def pyIntDigits (cs : List Char) : Option Int :=
  if digitGroups cs then
    some (Int.ofNat (digitsVal (cs.filter (fun c => !(c == '_')))))
  else none

/-- Signed numeral parse of a whitespace-trimmed character list. -/
def pyIntCore : List Char → Option Int
  | '+' :: rest => pyIntDigits rest
  | '-' :: rest => (pyIntDigits rest).map (fun n => -n)
  | rest => pyIntDigits rest

/-- Python `int(s)` on a string: `some n` on success, `none` when Python
would raise `ValueError`. Exact for ASCII strings: `int()` strips the
bytes 9 to 13 and 32 around the numeral and accepts an optional sign
followed by ASCII digits with PEP 515 single-underscore grouping (so
`int('1_0')` is 10 while `'1__0'`, `'_1'`, `'1_'` and `'+_1'` raise).
Python additionally accepts non-ASCII decimal digits and non-ASCII
whitespace, which this model rejects; theorems that conclude a
`ValueError` from `pyInt s = none` therefore restrict `s` to ASCII. -/
def pyInt (s : String) : Option Int :=
  pyIntCore (((s.data.dropWhile pyIsSpace).reverse.dropWhile pyIsSpace).reverse)

/-- Python `int(v)` on an arbitrary value. -/
def pyIntValue : Value → Res Int
  | .int n => Res.ret n
  | .bool b => Res.ret (if b then 1 else 0)
  | .str s =>
    match pyInt s with
    | some n => Res.ret n
    | none => ⟨[], .raised (.valueError s)⟩
  | .pyNone => ⟨[], .raised (.typeError "int() argument is None")⟩
  | .strList _ => ⟨[], .raised (.typeError "int() argument is a list")⟩

/-- Coercion check: `.endswith` and string concatenation need a `str` value. -/
def asStr : Value → Res String
  | .str s => Res.ret s
  | _ => ⟨[], .raised (.typeError "expected str")⟩

/-- The fields of `PACKAGE_INFO` used by the version message. The
`package_info` module is not under `src/`; its values are abstract. -/
structure PackageInfo : Type where
  PROGRAM_NAME : String
  VERSION : String
  DATE : String
  AUTHOR : String
  URL : String
deriving DecidableEq

/-- The formatted version message of the version flag's print call. -/
def versionMsg (p : PackageInfo) : String :=
  p.PROGRAM_NAME ++ " " ++ p.VERSION ++ " (" ++ p.DATE ++ ") by " ++
    p.AUTHOR ++ "\nCheck: " ++ p.URL

/-- The module-level defaults dict, holding the thread-count default 6. -/
def defaults : Dict := [("--threads", .int 6)]

/-- Version short-circuit of `parse_arguments`. -/
def versionStep (pinfo : PackageInfo) (d : Dict) : Res Unit :=
  Res.bind (getItem d "--version") fun v =>
    if truthy v then Res.bind (pyPrint (versionMsg pinfo)) fun _ => sysExit
    else Res.ret ()

/-- Thread-count block: `int()` conversion when truthy, else the default. -/
def threadsStep (d : Dict) : Res Dict :=
  Res.bind (getItem d "--threads") fun v =>
    if truthy v then
      Res.bind (pyIntValue v) fun n => Res.ret (d.insert "--threads" (.int n))
    else
      Res.bind (getItem defaults "--threads") fun dv =>
        Res.ret (d.insert "--threads" dv)

/-- The filename derived from the input BED paths when `--out` is falsy. -/
def deriveOutName (cwd : String) (beds : List String) : String :=
  pyJoin cwd (String.intercalate "__"
    (beds.map (fun bed => pyReplace (pyBasename bed) ".bed" "")))

/-- The `if not arguments['--out']:` derivation block. -/
def outDeriveStep (cwd : String) (d : Dict) : Res Dict :=
  Res.bind (getItem d "--out") fun ov =>
    if truthy ov then Res.ret d
    else
      Res.bind (getItem d "--in") fun inv =>
        match inv with
        | .strList beds => Res.ret (d.insert "--out" (.str (deriveOutName cwd beds)))
        | _ => ⟨[], .raised (.typeError "--in is not a list")⟩

/-- The block appending `.vcf` when the output path does not already end with it. -/
def vcfSuffixStep (d : Dict) : Res Dict :=
  Res.bind (getItem d "--out") fun ov =>
    Res.bind (asStr ov) fun s =>
      if pyEndsWith s ".vcf" then Res.ret d
      else Res.ret (d.insert "--out" (.str (s ++ ".vcf")))

/-- The block appending `.gz` when the unzipped flag is falsy. -/
def gzSuffixStep (d : Dict) : Res Dict :=
  Res.bind (getItem d "--unzipped") fun uz =>
    if truthy uz then Res.ret d
    else
      Res.bind (getItem d "--out") fun ov =>
        Res.bind (asStr ov) fun s =>
          Res.ret (d.insert "--out" (.str (s ++ ".gz")))

/-- The loop's `varnames` list, in source order. -/
def varnames : List String := ["bcftools", "tabix", "bgzip", "gatk3", "java", "reference_fasta"]

/-- One iteration of the tool-path loop: flag, else environment variable,
else print a message and `sys.exit()`. -/
def resolveTool (env : String → Option String) (d : Dict) (name : String) : Res Dict :=
  Res.bind (getItem d ("--" ++ dashify ("path_to_" ++ name))) fun v =>
    if truthy v then Res.ret d
    else
      match env (pyUpper ("path_to_" ++ name)) with
      | some ev => Res.ret (d.insert ("--" ++ dashify ("path_to_" ++ name)) (.str ev))
      | none =>
        Res.bind (pyPrint ("Missing either " ++ ("--" ++ dashify ("path_to_" ++ name)) ++
          " or ENV variable " ++ pyUpper ("path_to_" ++ name))) fun _ => sysExit

/-- The loop `for varname in varnames:`. -/
def resolveTools (env : String → Option String) : Dict → List String → Res Dict
  | d, [] => Res.ret d
  | d, n :: rest => Res.bind (resolveTool env d n) fun d2 => resolveTools env d2 rest

/-- The overwrite-guard warning, after formatting. -/
def guardMsg (outPath : String) : String :=
  "Output file " ++ outPath ++
    " already exists!\nUse --force or -f to overwrite it or change the output filename with --out."

/-- The guard `if '--force' not in arguments and isfile(arguments['--out']):`. -/
def overwriteGuardStep (isfile : String → Bool) (d : Dict) : Res Dict :=
  if d.hasKey "--force" then Res.ret d
  else
    Res.bind (getItem d "--out") fun ov =>
      Res.bind (asStr ov) fun s =>
        if isfile s then Res.bind (logWarn (guardMsg s)) fun _ => sysExit
        else Res.ret d

/-- The function `parse_arguments(arguments)`, parameterized by the
environment variables, the working directory and the `isfile` view of the
filesystem. -/
def parse_arguments (pinfo : PackageInfo) (env : String → Option String)
    (cwd : String) (isfile : String → Bool) (d : Dict) : Res Dict :=
  Res.bind (versionStep pinfo d) fun _ =>
  Res.bind (threadsStep d) fun d1 =>
  Res.bind (outDeriveStep cwd d1) fun d2 =>
  Res.bind (vcfSuffixStep d2) fun d3 =>
  Res.bind (gzSuffixStep d3) fun d4 =>
  Res.bind (resolveTools env d4 varnames) fun d5 =>
  overwriteGuardStep isfile d5

/-- What the external pipeline run does in a given scenario. -/
inductive PipeOutcome : Type
  | success : PipeOutcome
  | keyboardInterrupt : PipeOutcome
  | calledProcessError (returncode : Int) (cmd : String) : PipeOutcome
deriving DecidableEq

/-- Modelled from the spec: `run_pipeline` (module `lib`, not under `src/`)
executes the download pipeline; it may complete, be interrupted by the
user, or raise a `CalledProcessError` carrying the failing command and its
exit code. The scenario is the `PipeOutcome` parameter. -/
def run_pipeline (pa : PipelineArgs) (pipe : PipeOutcome) : Res Unit :=
  ⟨[.runPipeline pa],
   match pipe with
   | .success => .ok ()
   | .keyboardInterrupt => .raised .keyboardInterrupt
   | .calledProcessError rc cmd => .raised (.calledProcessError rc cmd)⟩

/-- The `run_pipeline(...)` call in `main`, with the keyword arguments
evaluated from the resolved mapping in source order. -/
def callRunPipeline (d : Dict) (pipe : PipeOutcome) : Res Unit :=
  Res.bind (getItem d "--in") fun bedfiles =>
  Res.bind (getItem d "--threads") fun threads =>
  Res.bind (getItem d "--out") fun outfile =>
  Res.bind (getItem d "--unzipped") fun unzipped =>
  Res.bind (getItem d "--dry-run") fun dry =>
  Res.bind (getItem d "--path-to-bcftools") fun pbcf =>
  Res.bind (getItem d "--path-to-java") fun pjava =>
  Res.bind (getItem d "--path-to-tabix") fun ptabix =>
  Res.bind (getItem d "--path-to-gatk3") fun pgatk =>
  Res.bind (getItem d "--path-to-bgzip") fun pbgz =>
  Res.bind (getItem d "--path-to-reference-fasta") fun pref =>
  run_pipeline ⟨bedfiles, threads, outfile, !truthy unzipped, dry,
    pbcf, pjava, ptabix, pgatk, pbgz, pref⟩ pipe

/-- Modelled from the spec: `cleanup_temp_files` (module `lib`, not under
`src/`) removes the temporary artifacts of the current invocation. -/
def cleanup_temp_files : Res Unit := ⟨[.cleanupTempFiles], .ok ()⟩

/-- The message logged for a `CalledProcessError`, after formatting with
`error.args = (returncode, cmd)`. -/
def cpeMsg (rc : Int) (cmd : String) : String :=
  "The following command failed (code: " ++ toString rc ++ "). Cleanup and exit: " ++ cmd

/-- The two `except` clauses of `main`: `KeyboardInterrupt` and
`CalledProcessError` are logged and turned into a bare `sys.exit()`;
everything else propagates. -/
def exceptClauses (r : Res Unit) : Res Unit :=
  match r.out with
  | .raised .keyboardInterrupt =>
    ⟨r.events ++ [.logWarning "User stopped the program. Cleanup and exit."], .exited none⟩
  | .raised (.calledProcessError rc cmd) =>
    ⟨r.events ++ [.logWarning (cpeMsg rc cmd)], .exited none⟩
  | _ => r

/-- The `finally:` block of `main`. -/
def finallyBlock (d : Dict) : Res Unit :=
  Res.bind (getItem d "--no-cleanup") fun nc =>
    if truthy nc then logInf "No cleanup requested, leaving the temp files."
    else Res.bind (logInf "Cleaning up temporary files.") fun _ => cleanup_temp_files

/-- Semantics of `try ... finally ...`: the finally block always runs; its
own abrupt outcome, if any, replaces the body's. -/
def pyTryFinally (body fin : Res Unit) : Res Unit :=
  ⟨body.events ++ fin.events,
   match fin.out with
   | .ok _ => body.out
   | o => o⟩

/-- The entry point `main()` (that name itself is reserved in Lean), with
the docopt result `rawArgs` and the pipeline scenario `pipe` as
parameters. -/
def mainFn (pinfo : PackageInfo) (env : String → Option String) (cwd : String)
    (isfile : String → Bool) (rawArgs : Dict) (pipe : PipeOutcome) : Res Unit :=
  Res.bind (parse_arguments pinfo env cwd isfile rawArgs) fun args =>
  Res.bind (getItem args "--debug") fun _ =>
  pyTryFinally (exceptClauses (callRunPipeline args pipe)) (finallyBlock args)

/-- The typed content of a docopt result for this program's usage string:
one entry per option, `Option String` for options taking an argument
(`none` when absent), `Bool` for plain flags, a list for `--in`. -/
structure DocoptArgs : Type where
  inFiles : List String
  out : Option String
  threads : Option String
  unzipped : Bool
  force : Bool
  dryRun : Bool
  debug : Bool
  noCleanup : Bool
  pathToBcftools : Option String
  pathToTabix : Option String
  pathToBgzip : Option String
  pathToJava : Option String
  pathToGatk3 : Option String
  pathToReferenceFasta : Option String
  help : Bool
  version : Bool
deriving DecidableEq

/-- An option-with-argument value as docopt stores it: `None` or a string. -/
def optStr : Option String → Value
  | some s => .str s
  | none => .pyNone

/-- The argument mapping docopt builds from this program's usage string:
every option of the usage string is present as a key. -/
def DocoptArgs.toDict (a : DocoptArgs) : Dict :=
  [("--in", .strList a.inFiles),
   ("--out", optStr a.out),
   ("--threads", optStr a.threads),
   ("--unzipped", .bool a.unzipped),
   ("--force", .bool a.force),
   ("--dry-run", .bool a.dryRun),
   ("--debug", .bool a.debug),
   ("--no-cleanup", .bool a.noCleanup),
   ("--path-to-bcftools", optStr a.pathToBcftools),
   ("--path-to-tabix", optStr a.pathToTabix),
   ("--path-to-bgzip", optStr a.pathToBgzip),
   ("--path-to-java", optStr a.pathToJava),
   ("--path-to-gatk3", optStr a.pathToGatk3),
   ("--path-to-reference-fasta", optStr a.pathToReferenceFasta),
   ("--help", .bool a.help),
   ("--version", .bool a.version)]

/-- The same mapping with the `'--force'` key removed: the hypothetical
mapping the overwrite guard's `'--force' not in arguments` test probes. -/
def DocoptArgs.toDictNoForce (a : DocoptArgs) : Dict :=
  [("--in", .strList a.inFiles),
   ("--out", optStr a.out),
   ("--threads", optStr a.threads),
   ("--unzipped", .bool a.unzipped),
   ("--dry-run", .bool a.dryRun),
   ("--debug", .bool a.debug),
   ("--no-cleanup", .bool a.noCleanup),
   ("--path-to-bcftools", optStr a.pathToBcftools),
   ("--path-to-tabix", optStr a.pathToTabix),
   ("--path-to-bgzip", optStr a.pathToBgzip),
   ("--path-to-java", optStr a.pathToJava),
   ("--path-to-gatk3", optStr a.pathToGatk3),
   ("--path-to-reference-fasta", optStr a.pathToReferenceFasta),
   ("--help", .bool a.help),
   ("--version", .bool a.version)]

/-- The thread count `parse_arguments` stores: the default 6 when the flag
is absent or empty (falsy), else the value of `int()`. -/
def resolvedThreadsOf : Option String → Int
  | none => 6
  | some s => if s == "" then 6 else (pyInt s).getD 0

/-- The thread-count block finishes without an exception. -/
def threadsOkOf : Option String → Bool
  | none => true
  | some s => (s == "") || (pyInt s).isSome

/-- The output path before suffixing: the given `--out` when truthy, else
the name derived from the input files. -/
def baseOutOf (cwd : String) (beds : List String) : Option String → String
  | none => deriveOutName cwd beds
  | some s => if s == "" then deriveOutName cwd beds else s

/-- The `.vcf`-suffix normalization. -/
def vcfOut (b : String) : String := if pyEndsWith b ".vcf" then b else b ++ ".vcf"

/-- The `.gz`-suffix normalization. -/
def gzOut (uz : Bool) (v : String) : String := if uz then v else v ++ ".gz"

/-- The fully resolved output path `parse_arguments` stores. -/
def outOf (cwd : String) (a : DocoptArgs) : String :=
  gzOut a.unzipped (vcfOut (baseOutOf cwd a.inFiles a.out))

/-- The tool path the loop stores: the flag when truthy, else the
environment variable. -/
def toolValue (env : String → Option String) (flag : Option String)
    (envName : String) : String :=
  match flag with
  | some s => if s == "" then (env envName).getD "" else s
  | none => (env envName).getD ""

/-- One tool-path iteration finishes without exiting. -/
def toolOk (env : String → Option String) (flag : Option String)
    (envName : String) : Bool :=
  (match flag with | some s => !(s == "") | none => false) || (env envName).isSome

/-- All six tool-path iterations finish without exiting. -/
def toolsOk (env : String → Option String) (a : DocoptArgs) : Bool :=
  toolOk env a.pathToBcftools "PATH_TO_BCFTOOLS" &&
  toolOk env a.pathToTabix "PATH_TO_TABIX" &&
  toolOk env a.pathToBgzip "PATH_TO_BGZIP" &&
  toolOk env a.pathToGatk3 "PATH_TO_GATK3" &&
  toolOk env a.pathToJava "PATH_TO_JAVA" &&
  toolOk env a.pathToReferenceFasta "PATH_TO_REFERENCE_FASTA"

/-- The mapping after the thread-count and output-path blocks. -/
def preDict (cwd : String) (a : DocoptArgs) : Dict :=
  (a.toDict.insert "--threads" (.int (resolvedThreadsOf a.threads))).insert
    "--out" (.str (outOf cwd a))

/-- The mapping `parse_arguments` returns on the success path. -/
def resolvedDict (env : String → Option String) (cwd : String) (a : DocoptArgs) : Dict :=
  (((((((preDict cwd a).insert
    "--path-to-bcftools" (.str (toolValue env a.pathToBcftools "PATH_TO_BCFTOOLS"))).insert
    "--path-to-tabix" (.str (toolValue env a.pathToTabix "PATH_TO_TABIX"))).insert
    "--path-to-bgzip" (.str (toolValue env a.pathToBgzip "PATH_TO_BGZIP"))).insert
    "--path-to-gatk3" (.str (toolValue env a.pathToGatk3 "PATH_TO_GATK3"))).insert
    "--path-to-java" (.str (toolValue env a.pathToJava "PATH_TO_JAVA"))).insert
    "--path-to-reference-fasta"
      (.str (toolValue env a.pathToReferenceFasta "PATH_TO_REFERENCE_FASTA")))

/-- The `--threads`/`--out` prefix applied to the force-less mapping. -/
def preDictNoForce (cwd : String) (a : DocoptArgs) : Dict :=
  (a.toDictNoForce.insert "--threads" (.int (resolvedThreadsOf a.threads))).insert
    "--out" (.str (outOf cwd a))

/-- The `PipelineArgs` record `main` hands to `run_pipeline` after a
successful resolution. -/
def pipelineArgsOf (env : String → Option String) (cwd : String)
    (a : DocoptArgs) : PipelineArgs :=
  ⟨.strList a.inFiles, .int (resolvedThreadsOf a.threads), .str (outOf cwd a),
   !a.unzipped, .bool a.dryRun,
   .str (toolValue env a.pathToBcftools "PATH_TO_BCFTOOLS"),
   .str (toolValue env a.pathToJava "PATH_TO_JAVA"),
   .str (toolValue env a.pathToTabix "PATH_TO_TABIX"),
   .str (toolValue env a.pathToGatk3 "PATH_TO_GATK3"),
   .str (toolValue env a.pathToBgzip "PATH_TO_BGZIP"),
   .str (toolValue env a.pathToReferenceFasta "PATH_TO_REFERENCE_FASTA")⟩

/-- Events of `main`'s except clauses for a given pipeline scenario. -/
def pipeEvents : PipeOutcome → List Event
  | .success => []
  | .keyboardInterrupt => [.logWarning "User stopped the program. Cleanup and exit."]
  | .calledProcessError rc cmd => [.logWarning (cpeMsg rc cmd)]

/-- Final outcome of `main` for a given pipeline scenario. -/
def pipeFinalOut : PipeOutcome → Outcome Unit
  | .success => .ok ()
  | .keyboardInterrupt => .exited none
  | .calledProcessError _ _ => .exited none

/-- Events of `main`'s `finally:` block. -/
def finEvents (noCleanup : Bool) : List Event :=
  if noCleanup then [.logInfo "No cleanup requested, leaving the temp files."]
  else [.logInfo "Cleaning up temporary files.", .cleanupTempFiles]

/-- Stated from the spec's words, as amended: the working directory joined
with the underscore-joined, `.bed`-stripped basenames, followed by `.vcf`
unless the joined name already ends with `.vcf`, and additionally by `.gz`
unless the unzipped flag is set. -/
def specDerivedOut (cwd : String) (ins : List String) (unzipped : Bool) : String :=
  let joined := pyJoin cwd (String.intercalate "__"
    (ins.map (fun b => pyReplace (pyBasename b) ".bed" "")))
  let withVcf := if pyEndsWith joined ".vcf" then joined else joined ++ ".vcf"
  if unzipped then withVcf else withVcf ++ ".gz"

/-- When the result is a returned mapping, its output path carries the
suffix the compression flag dictates. -/
def checkOutSuffix (r : Res Dict) (unzipped : Bool) : Bool :=
  match r.out with
  | .ok d =>
    match d.get? "--out" with
    | some (.str s) => if unzipped then pyEndsWith s ".vcf" else pyEndsWith s ".vcf.gz"
    | _ => false
  | _ => true

/-- The outcome is not an exit with an explicit exit code. -/
def exitCodeIsNone {α : Type} (r : Res α) : Bool :=
  match r.out with
  | .exited (some _) => false
  | _ => true

/-- The result of `parse_arguments` on a docopt mapping, after the version
and thread-count blocks: the first missing tool halts with its message,
otherwise the guard passes (the `'--force'` key is present) and the
resolved mapping is returned. -/
def parseAfterThreads (env : String → Option String) (cwd : String)
    (a : DocoptArgs) : Res Dict :=
  if toolOk env a.pathToBcftools "PATH_TO_BCFTOOLS" = false then
    ⟨[.print "Missing either --path-to-bcftools or ENV variable PATH_TO_BCFTOOLS"], .exited none⟩
  else if toolOk env a.pathToTabix "PATH_TO_TABIX" = false then
    ⟨[.print "Missing either --path-to-tabix or ENV variable PATH_TO_TABIX"], .exited none⟩
  else if toolOk env a.pathToBgzip "PATH_TO_BGZIP" = false then
    ⟨[.print "Missing either --path-to-bgzip or ENV variable PATH_TO_BGZIP"], .exited none⟩
  else if toolOk env a.pathToGatk3 "PATH_TO_GATK3" = false then
    ⟨[.print "Missing either --path-to-gatk3 or ENV variable PATH_TO_GATK3"], .exited none⟩
  else if toolOk env a.pathToJava "PATH_TO_JAVA" = false then
    ⟨[.print "Missing either --path-to-java or ENV variable PATH_TO_JAVA"], .exited none⟩
  else if toolOk env a.pathToReferenceFasta "PATH_TO_REFERENCE_FASTA" = false then
    ⟨[.print "Missing either --path-to-reference-fasta or ENV variable PATH_TO_REFERENCE_FASTA"], .exited none⟩
  else
    Res.ret (resolvedDict env cwd a)

/-- The total result of `parse_arguments` on a docopt mapping, as a pure
function of the arguments, environment and working directory: it does not
depend on the filesystem. -/
def parseResultFn (pinfo : PackageInfo) (env : String → Option String)
    (cwd : String) (a : DocoptArgs) : Res Dict :=
  if a.version then ⟨[.print (versionMsg pinfo)], .exited none⟩
  else
    match a.threads with
    | some s =>
      if s == "" then parseAfterThreads env cwd a
      else
        match pyInt s with
        | none => ⟨[], .raised (.valueError s)⟩
        | some _ => parseAfterThreads env cwd a
    | none => parseAfterThreads env cwd a

/-- The value stored under a key when the mapping was returned normally. -/
def entryOf (r : Res Dict) (k : String) : Option Value :=
  match r.out with
  | .ok d => d.get? k
  | _ => none

/-! ### Basic lemmas about `Res` and `Dict` -/

theorem Res.ret_bind {α β : Type} (a : α) (f : α → Res β) :
    Res.bind (Res.ret a) f = f a := rfl

theorem Dict.insert_get_self (d : Dict) (k : String) (v : Value)
    (h : d.get? k = some v) : d.insert k v = d := by
  induction d with
  | nil => simp [Dict.get?] at h
  | cons p rest ih =>
    obtain ⟨k0, v0⟩ := p
    by_cases hk : (k0 == k) = true
    · simp [Dict.get?, hk] at h
      simp [Dict.insert, hk, ← h, (eq_of_beq hk).symm]
    · simp only [Dict.get?, hk] at h
      simp only [Bool.not_eq_true] at hk
      simp [Dict.insert, hk, ih (by simpa using h)]

/-! ### Evaluation lemmas for the blocks of `parse_arguments` -/

theorem versionStep_of_false (pinfo : PackageInfo) (d : Dict) (v : Value)
    (hget : d.get? "--version" = some v) (hv : truthy v = false) :
    versionStep pinfo d = Res.ret () := by
  simp [versionStep, getItem, hget, Res.ret_bind, hv]

theorem versionStep_of_true (pinfo : PackageInfo) (d : Dict) (v : Value)
    (hget : d.get? "--version" = some v) (hv : truthy v = true) :
    versionStep pinfo d = ⟨[.print (versionMsg pinfo)], .exited none⟩ := by
  simp [versionStep, getItem, hget, Res.ret_bind, hv, pyPrint, sysExit,
    Res.bind, Res.ret]

theorem threadsStep_eval (d : Dict) (t : Option String)
    (hget : d.get? "--threads" = some (optStr t)) (ht : threadsOkOf t = true) :
    threadsStep d = Res.ret (d.insert "--threads" (.int (resolvedThreadsOf t))) := by
  cases t with
  | none =>
    simp [threadsStep, getItem, hget, optStr, truthy, Res.ret_bind, defaults,
      Dict.get?, resolvedThreadsOf]
  | some s =>
    by_cases hs : (s == "") = true
    · simp [threadsStep, getItem, hget, optStr, truthy, hs, Res.ret_bind,
        defaults, Dict.get?, resolvedThreadsOf]
    · have hsome : (pyInt s).isSome = true := by
        simpa [threadsOkOf, hs] using ht
      obtain ⟨n, hn⟩ := Option.isSome_iff_exists.mp hsome
      simp [threadsStep, getItem, hget, optStr, truthy, hs, Res.ret_bind,
        pyIntValue, hn, resolvedThreadsOf]

theorem threadsStep_raises (d : Dict) (s : String)
    (hget : d.get? "--threads" = some (.str s)) (hs : (s == "") = false)
    (hp : pyInt s = none) :
    threadsStep d = ⟨[], .raised (.valueError s)⟩ := by
  simp [threadsStep, getItem, hget, truthy, hs, Res.ret_bind, pyIntValue, hp,
    Res.bind, Res.ret]

theorem outDeriveStep_eval (cwd : String) (d : Dict) (o : Option String)
    (beds : List String) (hout : d.get? "--out" = some (optStr o))
    (hin : d.get? "--in" = some (.strList beds)) :
    outDeriveStep cwd d = Res.ret (d.insert "--out" (.str (baseOutOf cwd beds o))) := by
  cases o with
  | none =>
    simp [outDeriveStep, getItem, hout, hin, optStr, truthy, Res.ret_bind, baseOutOf]
  | some s =>
    by_cases hs : (s == "") = true
    · simp [outDeriveStep, getItem, hout, hin, optStr, truthy, hs, Res.ret_bind,
        baseOutOf]
    · have hins : d.insert "--out" (.str s) = d :=
        Dict.insert_get_self d "--out" (.str s) (by simpa [optStr] using hout)
      simp [outDeriveStep, getItem, hout, optStr, truthy, hs, Res.ret_bind,
        baseOutOf, hins]

theorem vcfSuffixStep_eval (d : Dict) (s : String)
    (hout : d.get? "--out" = some (.str s)) :
    vcfSuffixStep d = Res.ret (d.insert "--out" (.str (vcfOut s))) := by
  by_cases h : pyEndsWith s ".vcf" = true
  · have hins : d.insert "--out" (.str s) = d :=
      Dict.insert_get_self d "--out" (.str s) hout
    simp [vcfSuffixStep, getItem, hout, asStr, Res.ret_bind, h, vcfOut, hins]
  · simp [vcfSuffixStep, getItem, hout, asStr, Res.ret_bind, h, vcfOut]

theorem gzSuffixStep_eval (d : Dict) (u : Bool) (s : String)
    (huz : d.get? "--unzipped" = some (.bool u))
    (hout : d.get? "--out" = some (.str s)) :
    gzSuffixStep d = Res.ret (d.insert "--out" (.str (gzOut u s))) := by
  cases u with
  | true =>
    have hins : d.insert "--out" (.str s) = d :=
      Dict.insert_get_self d "--out" (.str s) hout
    simp [gzSuffixStep, getItem, huz, truthy, Res.ret_bind, gzOut, hins]
  | false =>
    simp [gzSuffixStep, getItem, huz, hout, truthy, asStr, Res.ret_bind, gzOut]

theorem resolveTool_eval (env : String → Option String) (d : Dict)
    (name : String) (flag : Option String)
    (hget : d.get? ("--" ++ dashify ("path_to_" ++ name)) = some (optStr flag))
    (hok : toolOk env flag (pyUpper ("path_to_" ++ name)) = true) :
    resolveTool env d name =
      Res.ret (d.insert ("--" ++ dashify ("path_to_" ++ name))
        (.str (toolValue env flag (pyUpper ("path_to_" ++ name))))) := by
  cases flag with
  | some s =>
    by_cases hs : (s == "") = true
    · have hsome : (env (pyUpper ("path_to_" ++ name))).isSome = true := by
        simpa [toolOk, hs] using hok
      obtain ⟨ev, hev⟩ := Option.isSome_iff_exists.mp hsome
      simp [resolveTool, getItem, hget, optStr, truthy, hs, Res.ret_bind,
        hev, toolValue]
    · have hins : d.insert ("--" ++ dashify ("path_to_" ++ name)) (.str s) = d :=
        Dict.insert_get_self _ _ _ (by simpa [optStr] using hget)
      simp [resolveTool, getItem, hget, optStr, truthy, hs, Res.ret_bind,
        toolValue, hins]
  | none =>
    have hsome : (env (pyUpper ("path_to_" ++ name))).isSome = true := by
      simpa [toolOk] using hok
    obtain ⟨ev, hev⟩ := Option.isSome_iff_exists.mp hsome
    simp [resolveTool, getItem, hget, optStr, truthy, Res.ret_bind, hev, toolValue]

theorem resolveTool_missing (env : String → Option String) (d : Dict)
    (name : String) (flag : Option String)
    (hget : d.get? ("--" ++ dashify ("path_to_" ++ name)) = some (optStr flag))
    (hmiss : toolOk env flag (pyUpper ("path_to_" ++ name)) = false) :
    resolveTool env d name =
      ⟨[.print ("Missing either " ++ ("--" ++ dashify ("path_to_" ++ name)) ++
        " or ENV variable " ++ pyUpper ("path_to_" ++ name))], .exited none⟩ := by
  cases flag with
  | some s =>
    simp only [toolOk, Bool.or_eq_false_iff] at hmiss
    obtain ⟨h1, h2⟩ := hmiss
    have hs : (s == "") = true := by simpa using h1
    have henv : env (pyUpper ("path_to_" ++ name)) = none :=
      Option.not_isSome_iff_eq_none.mp (by simp [h2])
    simp [resolveTool, getItem, hget, optStr, truthy, hs, Res.ret_bind, henv,
      pyPrint, sysExit, Res.bind, Res.ret]
  | none =>
    simp only [toolOk, Bool.or_eq_false_iff] at hmiss
    obtain ⟨h1, h2⟩ := hmiss
    have henv : env (pyUpper ("path_to_" ++ name)) = none :=
      Option.not_isSome_iff_eq_none.mp (by simp [h2])
    simp [resolveTool, getItem, hget, optStr, truthy, Res.ret_bind, henv,
      pyPrint, sysExit, Res.bind, Res.ret]

theorem guard_of_hasKey (isfile : String → Bool) (d : Dict)
    (h : d.hasKey "--force" = true) :
    overwriteGuardStep isfile d = Res.ret d := by
  simp [overwriteGuardStep, h]

theorem guard_fires (isfile : String → Bool) (d : Dict) (s : String)
    (h : d.hasKey "--force" = false) (hout : d.get? "--out" = some (.str s))
    (hf : isfile s = true) :
    overwriteGuardStep isfile d = ⟨[.logWarning (guardMsg s)], .exited none⟩ := by
  simp [overwriteGuardStep, h, getItem, hout, asStr, Res.ret_bind, hf, logWarn,
    sysExit, Res.bind, Res.ret]

theorem guard_clear (isfile : String → Bool) (d : Dict) (s : String)
    (h : d.hasKey "--force" = false) (hout : d.get? "--out" = some (.str s))
    (hf : isfile s = false) :
    overwriteGuardStep isfile d = Res.ret d := by
  simp [overwriteGuardStep, h, getItem, hout, asStr, Res.ret_bind, hf]

/-! ### Whole-`parse_arguments` evaluation lemmas on docopt mappings -/

theorem parse_of_version (pinfo : PackageInfo) (env : String → Option String)
    (cwd : String) (isfile : String → Bool) (d : Dict) (v : Value)
    (hget : d.get? "--version" = some v) (hv : truthy v = true) :
    parse_arguments pinfo env cwd isfile d =
      ⟨[.print (versionMsg pinfo)], .exited none⟩ := by
  rw [parse_arguments, versionStep_of_true pinfo d v hget hv]
  rfl

theorem parse_toDict_pre (pinfo : PackageInfo) (env : String → Option String)
    (cwd : String) (isfile : String → Bool) (a : DocoptArgs)
    (hv : a.version = false) (ht : threadsOkOf a.threads = true) :
    parse_arguments pinfo env cwd isfile a.toDict =
      Res.bind (resolveTools env (preDict cwd a) varnames)
        (fun d5 => overwriteGuardStep isfile d5) := by
  rw [parse_arguments, versionStep_of_false pinfo a.toDict (.bool a.version) rfl hv]
  simp only [Res.ret_bind]
  rw [threadsStep_eval a.toDict a.threads rfl ht]
  simp only [Res.ret_bind]
  rw [outDeriveStep_eval cwd
    (a.toDict.insert "--threads" (.int (resolvedThreadsOf a.threads)))
    a.out a.inFiles rfl rfl]
  simp only [Res.ret_bind]
  rw [vcfSuffixStep_eval
    ((a.toDict.insert "--threads" (.int (resolvedThreadsOf a.threads))).insert
      "--out" (.str (baseOutOf cwd a.inFiles a.out)))
    (baseOutOf cwd a.inFiles a.out) rfl]
  simp only [Res.ret_bind]
  rw [gzSuffixStep_eval
    (((a.toDict.insert "--threads" (.int (resolvedThreadsOf a.threads))).insert
      "--out" (.str (baseOutOf cwd a.inFiles a.out))).insert
      "--out" (.str (vcfOut (baseOutOf cwd a.inFiles a.out))))
    a.unzipped (vcfOut (baseOutOf cwd a.inFiles a.out)) rfl rfl]
  simp only [Res.ret_bind]
  rfl

theorem resolveTool_bcftools (env : String → Option String) (d : Dict)
    (flag : Option String)
    (hget : d.get? "--path-to-bcftools" = some (optStr flag))
    (hok : toolOk env flag "PATH_TO_BCFTOOLS" = true) :
    resolveTool env d "bcftools" =
      Res.ret (d.insert "--path-to-bcftools"
        (.str (toolValue env flag "PATH_TO_BCFTOOLS"))) :=
  resolveTool_eval env d "bcftools" flag hget hok

theorem resolveTool_tabix (env : String → Option String) (d : Dict)
    (flag : Option String)
    (hget : d.get? "--path-to-tabix" = some (optStr flag))
    (hok : toolOk env flag "PATH_TO_TABIX" = true) :
    resolveTool env d "tabix" =
      Res.ret (d.insert "--path-to-tabix"
        (.str (toolValue env flag "PATH_TO_TABIX"))) :=
  resolveTool_eval env d "tabix" flag hget hok

theorem resolveTool_bgzip (env : String → Option String) (d : Dict)
    (flag : Option String)
    (hget : d.get? "--path-to-bgzip" = some (optStr flag))
    (hok : toolOk env flag "PATH_TO_BGZIP" = true) :
    resolveTool env d "bgzip" =
      Res.ret (d.insert "--path-to-bgzip"
        (.str (toolValue env flag "PATH_TO_BGZIP"))) :=
  resolveTool_eval env d "bgzip" flag hget hok

theorem resolveTool_gatk3 (env : String → Option String) (d : Dict)
    (flag : Option String)
    (hget : d.get? "--path-to-gatk3" = some (optStr flag))
    (hok : toolOk env flag "PATH_TO_GATK3" = true) :
    resolveTool env d "gatk3" =
      Res.ret (d.insert "--path-to-gatk3"
        (.str (toolValue env flag "PATH_TO_GATK3"))) :=
  resolveTool_eval env d "gatk3" flag hget hok

theorem resolveTool_java (env : String → Option String) (d : Dict)
    (flag : Option String)
    (hget : d.get? "--path-to-java" = some (optStr flag))
    (hok : toolOk env flag "PATH_TO_JAVA" = true) :
    resolveTool env d "java" =
      Res.ret (d.insert "--path-to-java"
        (.str (toolValue env flag "PATH_TO_JAVA"))) :=
  resolveTool_eval env d "java" flag hget hok

theorem resolveTool_referenceFasta (env : String → Option String) (d : Dict)
    (flag : Option String)
    (hget : d.get? "--path-to-reference-fasta" = some (optStr flag))
    (hok : toolOk env flag "PATH_TO_REFERENCE_FASTA" = true) :
    resolveTool env d "reference_fasta" =
      Res.ret (d.insert "--path-to-reference-fasta"
        (.str (toolValue env flag "PATH_TO_REFERENCE_FASTA"))) :=
  resolveTool_eval env d "reference_fasta" flag hget hok

theorem parse_toDict_eval (pinfo : PackageInfo) (env : String → Option String)
    (cwd : String) (isfile : String → Bool) (a : DocoptArgs)
    (hv : a.version = false) (ht : threadsOkOf a.threads = true)
    (htools : toolsOk env a = true) :
    parse_arguments pinfo env cwd isfile a.toDict =
      Res.ret (resolvedDict env cwd a) := by
  rw [parse_toDict_pre pinfo env cwd isfile a hv ht]
  simp only [toolsOk, Bool.and_eq_true] at htools
  obtain ⟨⟨⟨⟨⟨h1, h2⟩, h3⟩, h4⟩, h5⟩, h6⟩ := htools
  simp only [varnames, resolveTools]
  rw [resolveTool_bcftools env (preDict cwd a) a.pathToBcftools rfl h1]
  simp only [Res.ret_bind]
  rw [resolveTool_tabix env
    ((preDict cwd a).insert "--path-to-bcftools"
      (.str (toolValue env a.pathToBcftools "PATH_TO_BCFTOOLS")))
    a.pathToTabix rfl h2]
  simp only [Res.ret_bind]
  rw [resolveTool_bgzip env
    (((preDict cwd a).insert "--path-to-bcftools"
      (.str (toolValue env a.pathToBcftools "PATH_TO_BCFTOOLS"))).insert
      "--path-to-tabix" (.str (toolValue env a.pathToTabix "PATH_TO_TABIX")))
    a.pathToBgzip rfl h3]
  simp only [Res.ret_bind]
  rw [resolveTool_gatk3 env
    ((((preDict cwd a).insert "--path-to-bcftools"
      (.str (toolValue env a.pathToBcftools "PATH_TO_BCFTOOLS"))).insert
      "--path-to-tabix" (.str (toolValue env a.pathToTabix "PATH_TO_TABIX"))).insert
      "--path-to-bgzip" (.str (toolValue env a.pathToBgzip "PATH_TO_BGZIP")))
    a.pathToGatk3 rfl h4]
  simp only [Res.ret_bind]
  rw [resolveTool_java env
    (((((preDict cwd a).insert "--path-to-bcftools"
      (.str (toolValue env a.pathToBcftools "PATH_TO_BCFTOOLS"))).insert
      "--path-to-tabix" (.str (toolValue env a.pathToTabix "PATH_TO_TABIX"))).insert
      "--path-to-bgzip" (.str (toolValue env a.pathToBgzip "PATH_TO_BGZIP"))).insert
      "--path-to-gatk3" (.str (toolValue env a.pathToGatk3 "PATH_TO_GATK3")))
    a.pathToJava rfl h5]
  simp only [Res.ret_bind]
  rw [resolveTool_referenceFasta env
    ((((((preDict cwd a).insert "--path-to-bcftools"
      (.str (toolValue env a.pathToBcftools "PATH_TO_BCFTOOLS"))).insert
      "--path-to-tabix" (.str (toolValue env a.pathToTabix "PATH_TO_TABIX"))).insert
      "--path-to-bgzip" (.str (toolValue env a.pathToBgzip "PATH_TO_BGZIP"))).insert
      "--path-to-gatk3" (.str (toolValue env a.pathToGatk3 "PATH_TO_GATK3"))).insert
      "--path-to-java" (.str (toolValue env a.pathToJava "PATH_TO_JAVA")))
    a.pathToReferenceFasta rfl h6]
  simp only [Res.ret_bind]
  rw [guard_of_hasKey isfile
    (((((((preDict cwd a).insert "--path-to-bcftools"
      (.str (toolValue env a.pathToBcftools "PATH_TO_BCFTOOLS"))).insert
      "--path-to-tabix" (.str (toolValue env a.pathToTabix "PATH_TO_TABIX"))).insert
      "--path-to-bgzip" (.str (toolValue env a.pathToBgzip "PATH_TO_BGZIP"))).insert
      "--path-to-gatk3" (.str (toolValue env a.pathToGatk3 "PATH_TO_GATK3"))).insert
      "--path-to-java" (.str (toolValue env a.pathToJava "PATH_TO_JAVA"))).insert
      "--path-to-reference-fasta"
        (.str (toolValue env a.pathToReferenceFasta "PATH_TO_REFERENCE_FASTA")))
    rfl]
  rfl

theorem parse_toDict_badThreads (pinfo : PackageInfo) (env : String → Option String)
    (cwd : String) (isfile : String → Bool) (a : DocoptArgs) (s : String)
    (hv : a.version = false) (hthr : a.threads = some s)
    (hs : (s == "") = false) (hp : pyInt s = none) :
    parse_arguments pinfo env cwd isfile a.toDict = ⟨[], .raised (.valueError s)⟩ := by
  have hget : a.toDict.get? "--threads" = some (.str s) := by
    simp [DocoptArgs.toDict, Dict.get?, hthr, optStr]
  rw [parse_arguments, versionStep_of_false pinfo a.toDict (.bool a.version) rfl hv]
  simp only [Res.ret_bind]
  rw [threadsStep_raises a.toDict s hget hs hp]
  rfl

theorem resolveTool_bcftools_missing (env : String → Option String) (d : Dict)
    (flag : Option String)
    (hget : d.get? "--path-to-bcftools" = some (optStr flag))
    (hmiss : toolOk env flag "PATH_TO_BCFTOOLS" = false) :
    resolveTool env d "bcftools" =
      ⟨[.print "Missing either --path-to-bcftools or ENV variable PATH_TO_BCFTOOLS"],
        .exited none⟩ :=
  resolveTool_missing env d "bcftools" flag hget hmiss

theorem resolveTool_tabix_missing (env : String → Option String) (d : Dict)
    (flag : Option String)
    (hget : d.get? "--path-to-tabix" = some (optStr flag))
    (hmiss : toolOk env flag "PATH_TO_TABIX" = false) :
    resolveTool env d "tabix" =
      ⟨[.print "Missing either --path-to-tabix or ENV variable PATH_TO_TABIX"],
        .exited none⟩ :=
  resolveTool_missing env d "tabix" flag hget hmiss

theorem resolveTool_bgzip_missing (env : String → Option String) (d : Dict)
    (flag : Option String)
    (hget : d.get? "--path-to-bgzip" = some (optStr flag))
    (hmiss : toolOk env flag "PATH_TO_BGZIP" = false) :
    resolveTool env d "bgzip" =
      ⟨[.print "Missing either --path-to-bgzip or ENV variable PATH_TO_BGZIP"],
        .exited none⟩ :=
  resolveTool_missing env d "bgzip" flag hget hmiss

theorem resolveTool_gatk3_missing (env : String → Option String) (d : Dict)
    (flag : Option String)
    (hget : d.get? "--path-to-gatk3" = some (optStr flag))
    (hmiss : toolOk env flag "PATH_TO_GATK3" = false) :
    resolveTool env d "gatk3" =
      ⟨[.print "Missing either --path-to-gatk3 or ENV variable PATH_TO_GATK3"],
        .exited none⟩ :=
  resolveTool_missing env d "gatk3" flag hget hmiss

theorem resolveTool_java_missing (env : String → Option String) (d : Dict)
    (flag : Option String)
    (hget : d.get? "--path-to-java" = some (optStr flag))
    (hmiss : toolOk env flag "PATH_TO_JAVA" = false) :
    resolveTool env d "java" =
      ⟨[.print "Missing either --path-to-java or ENV variable PATH_TO_JAVA"],
        .exited none⟩ :=
  resolveTool_missing env d "java" flag hget hmiss

theorem resolveTool_referenceFasta_missing (env : String → Option String) (d : Dict)
    (flag : Option String)
    (hget : d.get? "--path-to-reference-fasta" = some (optStr flag))
    (hmiss : toolOk env flag "PATH_TO_REFERENCE_FASTA" = false) :
    resolveTool env d "reference_fasta" =
      ⟨[.print "Missing either --path-to-reference-fasta or ENV variable PATH_TO_REFERENCE_FASTA"],
        .exited none⟩ :=
  resolveTool_missing env d "reference_fasta" flag hget hmiss

theorem parse_missing_bcftools (pinfo : PackageInfo) (env : String → Option String)
    (cwd : String) (isfile : String → Bool) (a : DocoptArgs)
    (hv : a.version = false) (ht : threadsOkOf a.threads = true)
    (hm : toolOk env a.pathToBcftools "PATH_TO_BCFTOOLS" = false) :
    parse_arguments pinfo env cwd isfile a.toDict =
      ⟨[.print "Missing either --path-to-bcftools or ENV variable PATH_TO_BCFTOOLS"],
        .exited none⟩ := by
  rw [parse_toDict_pre pinfo env cwd isfile a hv ht]
  simp only [varnames, resolveTools]
  rw [resolveTool_bcftools_missing env (preDict cwd a) a.pathToBcftools rfl hm]
  rfl

theorem parse_missing_tabix (pinfo : PackageInfo) (env : String → Option String)
    (cwd : String) (isfile : String → Bool) (a : DocoptArgs)
    (hv : a.version = false) (ht : threadsOkOf a.threads = true)
    (h1 : toolOk env a.pathToBcftools "PATH_TO_BCFTOOLS" = true)
    (hm : toolOk env a.pathToTabix "PATH_TO_TABIX" = false) :
    parse_arguments pinfo env cwd isfile a.toDict =
      ⟨[.print "Missing either --path-to-tabix or ENV variable PATH_TO_TABIX"],
        .exited none⟩ := by
  rw [parse_toDict_pre pinfo env cwd isfile a hv ht]
  simp only [varnames, resolveTools]
  rw [resolveTool_bcftools env (preDict cwd a) a.pathToBcftools rfl h1]
  simp only [Res.ret_bind]
  rw [resolveTool_tabix_missing env
    ((preDict cwd a).insert "--path-to-bcftools"
      (.str (toolValue env a.pathToBcftools "PATH_TO_BCFTOOLS")))
    a.pathToTabix rfl hm]
  rfl

theorem parse_missing_bgzip (pinfo : PackageInfo) (env : String → Option String)
    (cwd : String) (isfile : String → Bool) (a : DocoptArgs)
    (hv : a.version = false) (ht : threadsOkOf a.threads = true)
    (h1 : toolOk env a.pathToBcftools "PATH_TO_BCFTOOLS" = true)
    (h2 : toolOk env a.pathToTabix "PATH_TO_TABIX" = true)
    (hm : toolOk env a.pathToBgzip "PATH_TO_BGZIP" = false) :
    parse_arguments pinfo env cwd isfile a.toDict =
      ⟨[.print "Missing either --path-to-bgzip or ENV variable PATH_TO_BGZIP"],
        .exited none⟩ := by
  rw [parse_toDict_pre pinfo env cwd isfile a hv ht]
  simp only [varnames, resolveTools]
  rw [resolveTool_bcftools env (preDict cwd a) a.pathToBcftools rfl h1]
  simp only [Res.ret_bind]
  rw [resolveTool_tabix env
    ((preDict cwd a).insert "--path-to-bcftools"
      (.str (toolValue env a.pathToBcftools "PATH_TO_BCFTOOLS")))
    a.pathToTabix rfl h2]
  simp only [Res.ret_bind]
  rw [resolveTool_bgzip_missing env
    (((preDict cwd a).insert "--path-to-bcftools"
      (.str (toolValue env a.pathToBcftools "PATH_TO_BCFTOOLS"))).insert
      "--path-to-tabix" (.str (toolValue env a.pathToTabix "PATH_TO_TABIX")))
    a.pathToBgzip rfl hm]
  rfl

theorem parse_missing_gatk3 (pinfo : PackageInfo) (env : String → Option String)
    (cwd : String) (isfile : String → Bool) (a : DocoptArgs)
    (hv : a.version = false) (ht : threadsOkOf a.threads = true)
    (h1 : toolOk env a.pathToBcftools "PATH_TO_BCFTOOLS" = true)
    (h2 : toolOk env a.pathToTabix "PATH_TO_TABIX" = true)
    (h3 : toolOk env a.pathToBgzip "PATH_TO_BGZIP" = true)
    (hm : toolOk env a.pathToGatk3 "PATH_TO_GATK3" = false) :
    parse_arguments pinfo env cwd isfile a.toDict =
      ⟨[.print "Missing either --path-to-gatk3 or ENV variable PATH_TO_GATK3"],
        .exited none⟩ := by
  rw [parse_toDict_pre pinfo env cwd isfile a hv ht]
  simp only [varnames, resolveTools]
  rw [resolveTool_bcftools env (preDict cwd a) a.pathToBcftools rfl h1]
  simp only [Res.ret_bind]
  rw [resolveTool_tabix env
    ((preDict cwd a).insert "--path-to-bcftools"
      (.str (toolValue env a.pathToBcftools "PATH_TO_BCFTOOLS")))
    a.pathToTabix rfl h2]
  simp only [Res.ret_bind]
  rw [resolveTool_bgzip env
    (((preDict cwd a).insert "--path-to-bcftools"
      (.str (toolValue env a.pathToBcftools "PATH_TO_BCFTOOLS"))).insert
      "--path-to-tabix" (.str (toolValue env a.pathToTabix "PATH_TO_TABIX")))
    a.pathToBgzip rfl h3]
  simp only [Res.ret_bind]
  rw [resolveTool_gatk3_missing env
    ((((preDict cwd a).insert "--path-to-bcftools"
      (.str (toolValue env a.pathToBcftools "PATH_TO_BCFTOOLS"))).insert
      "--path-to-tabix" (.str (toolValue env a.pathToTabix "PATH_TO_TABIX"))).insert
      "--path-to-bgzip" (.str (toolValue env a.pathToBgzip "PATH_TO_BGZIP")))
    a.pathToGatk3 rfl hm]
  rfl

theorem parse_missing_java (pinfo : PackageInfo) (env : String → Option String)
    (cwd : String) (isfile : String → Bool) (a : DocoptArgs)
    (hv : a.version = false) (ht : threadsOkOf a.threads = true)
    (h1 : toolOk env a.pathToBcftools "PATH_TO_BCFTOOLS" = true)
    (h2 : toolOk env a.pathToTabix "PATH_TO_TABIX" = true)
    (h3 : toolOk env a.pathToBgzip "PATH_TO_BGZIP" = true)
    (h4 : toolOk env a.pathToGatk3 "PATH_TO_GATK3" = true)
    (hm : toolOk env a.pathToJava "PATH_TO_JAVA" = false) :
    parse_arguments pinfo env cwd isfile a.toDict =
      ⟨[.print "Missing either --path-to-java or ENV variable PATH_TO_JAVA"],
        .exited none⟩ := by
  rw [parse_toDict_pre pinfo env cwd isfile a hv ht]
  simp only [varnames, resolveTools]
  rw [resolveTool_bcftools env (preDict cwd a) a.pathToBcftools rfl h1]
  simp only [Res.ret_bind]
  rw [resolveTool_tabix env
    ((preDict cwd a).insert "--path-to-bcftools"
      (.str (toolValue env a.pathToBcftools "PATH_TO_BCFTOOLS")))
    a.pathToTabix rfl h2]
  simp only [Res.ret_bind]
  rw [resolveTool_bgzip env
    (((preDict cwd a).insert "--path-to-bcftools"
      (.str (toolValue env a.pathToBcftools "PATH_TO_BCFTOOLS"))).insert
      "--path-to-tabix" (.str (toolValue env a.pathToTabix "PATH_TO_TABIX")))
    a.pathToBgzip rfl h3]
  simp only [Res.ret_bind]
  rw [resolveTool_gatk3 env
    ((((preDict cwd a).insert "--path-to-bcftools"
      (.str (toolValue env a.pathToBcftools "PATH_TO_BCFTOOLS"))).insert
      "--path-to-tabix" (.str (toolValue env a.pathToTabix "PATH_TO_TABIX"))).insert
      "--path-to-bgzip" (.str (toolValue env a.pathToBgzip "PATH_TO_BGZIP")))
    a.pathToGatk3 rfl h4]
  simp only [Res.ret_bind]
  rw [resolveTool_java_missing env
    (((((preDict cwd a).insert "--path-to-bcftools"
      (.str (toolValue env a.pathToBcftools "PATH_TO_BCFTOOLS"))).insert
      "--path-to-tabix" (.str (toolValue env a.pathToTabix "PATH_TO_TABIX"))).insert
      "--path-to-bgzip" (.str (toolValue env a.pathToBgzip "PATH_TO_BGZIP"))).insert
      "--path-to-gatk3" (.str (toolValue env a.pathToGatk3 "PATH_TO_GATK3")))
    a.pathToJava rfl hm]
  rfl

theorem parse_missing_referenceFasta (pinfo : PackageInfo)
    (env : String → Option String) (cwd : String) (isfile : String → Bool)
    (a : DocoptArgs)
    (hv : a.version = false) (ht : threadsOkOf a.threads = true)
    (h1 : toolOk env a.pathToBcftools "PATH_TO_BCFTOOLS" = true)
    (h2 : toolOk env a.pathToTabix "PATH_TO_TABIX" = true)
    (h3 : toolOk env a.pathToBgzip "PATH_TO_BGZIP" = true)
    (h4 : toolOk env a.pathToGatk3 "PATH_TO_GATK3" = true)
    (h5 : toolOk env a.pathToJava "PATH_TO_JAVA" = true)
    (hm : toolOk env a.pathToReferenceFasta "PATH_TO_REFERENCE_FASTA" = false) :
    parse_arguments pinfo env cwd isfile a.toDict =
      ⟨[.print "Missing either --path-to-reference-fasta or ENV variable PATH_TO_REFERENCE_FASTA"],
        .exited none⟩ := by
  rw [parse_toDict_pre pinfo env cwd isfile a hv ht]
  simp only [varnames, resolveTools]
  rw [resolveTool_bcftools env (preDict cwd a) a.pathToBcftools rfl h1]
  simp only [Res.ret_bind]
  rw [resolveTool_tabix env
    ((preDict cwd a).insert "--path-to-bcftools"
      (.str (toolValue env a.pathToBcftools "PATH_TO_BCFTOOLS")))
    a.pathToTabix rfl h2]
  simp only [Res.ret_bind]
  rw [resolveTool_bgzip env
    (((preDict cwd a).insert "--path-to-bcftools"
      (.str (toolValue env a.pathToBcftools "PATH_TO_BCFTOOLS"))).insert
      "--path-to-tabix" (.str (toolValue env a.pathToTabix "PATH_TO_TABIX")))
    a.pathToBgzip rfl h3]
  simp only [Res.ret_bind]
  rw [resolveTool_gatk3 env
    ((((preDict cwd a).insert "--path-to-bcftools"
      (.str (toolValue env a.pathToBcftools "PATH_TO_BCFTOOLS"))).insert
      "--path-to-tabix" (.str (toolValue env a.pathToTabix "PATH_TO_TABIX"))).insert
      "--path-to-bgzip" (.str (toolValue env a.pathToBgzip "PATH_TO_BGZIP")))
    a.pathToGatk3 rfl h4]
  simp only [Res.ret_bind]
  rw [resolveTool_java env
    (((((preDict cwd a).insert "--path-to-bcftools"
      (.str (toolValue env a.pathToBcftools "PATH_TO_BCFTOOLS"))).insert
      "--path-to-tabix" (.str (toolValue env a.pathToTabix "PATH_TO_TABIX"))).insert
      "--path-to-bgzip" (.str (toolValue env a.pathToBgzip "PATH_TO_BGZIP"))).insert
      "--path-to-gatk3" (.str (toolValue env a.pathToGatk3 "PATH_TO_GATK3")))
    a.pathToJava rfl h5]
  simp only [Res.ret_bind]
  rw [resolveTool_referenceFasta_missing env
    ((((((preDict cwd a).insert "--path-to-bcftools"
      (.str (toolValue env a.pathToBcftools "PATH_TO_BCFTOOLS"))).insert
      "--path-to-tabix" (.str (toolValue env a.pathToTabix "PATH_TO_TABIX"))).insert
      "--path-to-bgzip" (.str (toolValue env a.pathToBgzip "PATH_TO_BGZIP"))).insert
      "--path-to-gatk3" (.str (toolValue env a.pathToGatk3 "PATH_TO_GATK3"))).insert
      "--path-to-java" (.str (toolValue env a.pathToJava "PATH_TO_JAVA")))
    a.pathToReferenceFasta rfl hm]
  rfl

theorem parse_noForce_pre (pinfo : PackageInfo) (env : String → Option String)
    (cwd : String) (isfile : String → Bool) (a : DocoptArgs)
    (hv : a.version = false) (ht : threadsOkOf a.threads = true) :
    parse_arguments pinfo env cwd isfile a.toDictNoForce =
      Res.bind (resolveTools env (preDictNoForce cwd a) varnames)
        (fun d5 => overwriteGuardStep isfile d5) := by
  rw [parse_arguments,
    versionStep_of_false pinfo a.toDictNoForce (.bool a.version) rfl hv]
  simp only [Res.ret_bind]
  rw [threadsStep_eval a.toDictNoForce a.threads rfl ht]
  simp only [Res.ret_bind]
  rw [outDeriveStep_eval cwd
    (a.toDictNoForce.insert "--threads" (.int (resolvedThreadsOf a.threads)))
    a.out a.inFiles rfl rfl]
  simp only [Res.ret_bind]
  rw [vcfSuffixStep_eval
    ((a.toDictNoForce.insert "--threads" (.int (resolvedThreadsOf a.threads))).insert
      "--out" (.str (baseOutOf cwd a.inFiles a.out)))
    (baseOutOf cwd a.inFiles a.out) rfl]
  simp only [Res.ret_bind]
  rw [gzSuffixStep_eval
    (((a.toDictNoForce.insert "--threads" (.int (resolvedThreadsOf a.threads))).insert
      "--out" (.str (baseOutOf cwd a.inFiles a.out))).insert
      "--out" (.str (vcfOut (baseOutOf cwd a.inFiles a.out))))
    a.unzipped (vcfOut (baseOutOf cwd a.inFiles a.out)) rfl rfl]
  simp only [Res.ret_bind]
  rfl

theorem parse_noForce_guard (pinfo : PackageInfo) (env : String → Option String)
    (cwd : String) (isfile : String → Bool) (a : DocoptArgs)
    (hv : a.version = false) (ht : threadsOkOf a.threads = true)
    (htools : toolsOk env a = true)
    (hfile : isfile (outOf cwd a) = true) :
    parse_arguments pinfo env cwd isfile a.toDictNoForce =
      ⟨[.logWarning (guardMsg (outOf cwd a))], .exited none⟩ := by
  rw [parse_noForce_pre pinfo env cwd isfile a hv ht]
  simp only [toolsOk, Bool.and_eq_true] at htools
  obtain ⟨⟨⟨⟨⟨h1, h2⟩, h3⟩, h4⟩, h5⟩, h6⟩ := htools
  simp only [varnames, resolveTools]
  rw [resolveTool_bcftools env (preDictNoForce cwd a) a.pathToBcftools rfl h1]
  simp only [Res.ret_bind]
  rw [resolveTool_tabix env
    ((preDictNoForce cwd a).insert "--path-to-bcftools"
      (.str (toolValue env a.pathToBcftools "PATH_TO_BCFTOOLS")))
    a.pathToTabix rfl h2]
  simp only [Res.ret_bind]
  rw [resolveTool_bgzip env
    (((preDictNoForce cwd a).insert "--path-to-bcftools"
      (.str (toolValue env a.pathToBcftools "PATH_TO_BCFTOOLS"))).insert
      "--path-to-tabix" (.str (toolValue env a.pathToTabix "PATH_TO_TABIX")))
    a.pathToBgzip rfl h3]
  simp only [Res.ret_bind]
  rw [resolveTool_gatk3 env
    ((((preDictNoForce cwd a).insert "--path-to-bcftools"
      (.str (toolValue env a.pathToBcftools "PATH_TO_BCFTOOLS"))).insert
      "--path-to-tabix" (.str (toolValue env a.pathToTabix "PATH_TO_TABIX"))).insert
      "--path-to-bgzip" (.str (toolValue env a.pathToBgzip "PATH_TO_BGZIP")))
    a.pathToGatk3 rfl h4]
  simp only [Res.ret_bind]
  rw [resolveTool_java env
    (((((preDictNoForce cwd a).insert "--path-to-bcftools"
      (.str (toolValue env a.pathToBcftools "PATH_TO_BCFTOOLS"))).insert
      "--path-to-tabix" (.str (toolValue env a.pathToTabix "PATH_TO_TABIX"))).insert
      "--path-to-bgzip" (.str (toolValue env a.pathToBgzip "PATH_TO_BGZIP"))).insert
      "--path-to-gatk3" (.str (toolValue env a.pathToGatk3 "PATH_TO_GATK3")))
    a.pathToJava rfl h5]
  simp only [Res.ret_bind]
  rw [resolveTool_referenceFasta env
    ((((((preDictNoForce cwd a).insert "--path-to-bcftools"
      (.str (toolValue env a.pathToBcftools "PATH_TO_BCFTOOLS"))).insert
      "--path-to-tabix" (.str (toolValue env a.pathToTabix "PATH_TO_TABIX"))).insert
      "--path-to-bgzip" (.str (toolValue env a.pathToBgzip "PATH_TO_BGZIP"))).insert
      "--path-to-gatk3" (.str (toolValue env a.pathToGatk3 "PATH_TO_GATK3"))).insert
      "--path-to-java" (.str (toolValue env a.pathToJava "PATH_TO_JAVA")))
    a.pathToReferenceFasta rfl h6]
  simp only [Res.ret_bind]
  rw [guard_fires isfile
    (((((((preDictNoForce cwd a).insert "--path-to-bcftools"
      (.str (toolValue env a.pathToBcftools "PATH_TO_BCFTOOLS"))).insert
      "--path-to-tabix" (.str (toolValue env a.pathToTabix "PATH_TO_TABIX"))).insert
      "--path-to-bgzip" (.str (toolValue env a.pathToBgzip "PATH_TO_BGZIP"))).insert
      "--path-to-gatk3" (.str (toolValue env a.pathToGatk3 "PATH_TO_GATK3"))).insert
      "--path-to-java" (.str (toolValue env a.pathToJava "PATH_TO_JAVA"))).insert
      "--path-to-reference-fasta"
        (.str (toolValue env a.pathToReferenceFasta "PATH_TO_REFERENCE_FASTA")))
    (outOf cwd a) rfl rfl hfile]

set_option maxHeartbeats 1600000 in
theorem mainFn_toDict_eval (pinfo : PackageInfo) (env : String → Option String)
    (cwd : String) (isfile : String → Bool) (a : DocoptArgs) (pipe : PipeOutcome)
    (hv : a.version = false) (ht : threadsOkOf a.threads = true)
    (htools : toolsOk env a = true) :
    mainFn pinfo env cwd isfile a.toDict pipe =
      ⟨.runPipeline (pipelineArgsOf env cwd a) ::
        (pipeEvents pipe ++ finEvents a.noCleanup), pipeFinalOut pipe⟩ := by
  rw [mainFn, parse_toDict_eval pinfo env cwd isfile a hv ht htools]
  simp only [Res.ret_bind]
  have hdbg : getItem (resolvedDict env cwd a) "--debug" =
      Res.ret (Value.bool a.debug) := rfl
  have hcall : callRunPipeline (resolvedDict env cwd a) pipe =
      run_pipeline (pipelineArgsOf env cwd a) pipe := rfl
  have hncv : (resolvedDict env cwd a).get? "--no-cleanup" =
      some (.bool a.noCleanup) := rfl
  have hfin : finallyBlock (resolvedDict env cwd a) =
      ⟨finEvents a.noCleanup, .ok ()⟩ := by
    simp only [finallyBlock, getItem, hncv, Res.ret_bind]
    cases hnc : a.noCleanup <;>
      simp [truthy, finEvents, logInf, cleanup_temp_files, Res.bind, Res.ret]
  rw [hdbg]
  simp only [Res.ret_bind]
  rw [hcall, hfin]
  cases pipe <;> rfl

/-! ### Every `sys.exit` in the program carries no exit code -/

theorem ecin_bind {α β : Type} (x : Res α) (f : α → Res β)
    (hx : exitCodeIsNone x = true) (hf : ∀ a, exitCodeIsNone (f a) = true) :
    exitCodeIsNone (x.bind f) = true := by
  unfold exitCodeIsNone Res.bind at *
  cases hxo : x.out with
  | ok a => simpa using hf a
  | exited c =>
    rw [hxo] at hx
    cases c with
    | none => simp
    | some n => simp at hx
  | raised e => simp

theorem ecin_getItem (d : Dict) (k : String) :
    exitCodeIsNone (getItem d k) = true := by
  unfold getItem
  cases d.get? k <;> rfl

theorem ecin_pyIntValue (v : Value) : exitCodeIsNone (pyIntValue v) = true := by
  cases v with
  | str s => cases hp : pyInt s <;> simp [pyIntValue, hp, exitCodeIsNone, Res.ret]
  | bool b => cases b <;> rfl
  | _ => rfl

theorem ecin_asStr (v : Value) : exitCodeIsNone (asStr v) = true := by
  cases v <;> rfl

theorem ecin_versionStep (pinfo : PackageInfo) (d : Dict) :
    exitCodeIsNone (versionStep pinfo d) = true := by
  unfold versionStep
  refine ecin_bind _ _ (ecin_getItem d "--version") (fun v => ?_)
  cases truthy v <;> rfl

theorem ecin_threadsStep (d : Dict) : exitCodeIsNone (threadsStep d) = true := by
  unfold threadsStep
  refine ecin_bind _ _ (ecin_getItem d "--threads") (fun v => ?_)
  cases htv : truthy v
  · simp only [Bool.false_eq_true, if_false]
    exact ecin_bind _ _ (ecin_getItem defaults "--threads") (fun dv => rfl)
  · simp only [if_true]
    exact ecin_bind _ _ (ecin_pyIntValue v) (fun n => rfl)

theorem ecin_outDeriveStep (cwd : String) (d : Dict) :
    exitCodeIsNone (outDeriveStep cwd d) = true := by
  unfold outDeriveStep
  refine ecin_bind _ _ (ecin_getItem d "--out") (fun ov => ?_)
  cases truthy ov
  · simp only [Bool.false_eq_true, if_false]
    refine ecin_bind _ _ (ecin_getItem d "--in") (fun inv => ?_)
    cases inv <;> rfl
  · rfl

theorem ecin_vcfSuffixStep (d : Dict) :
    exitCodeIsNone (vcfSuffixStep d) = true := by
  unfold vcfSuffixStep
  refine ecin_bind _ _ (ecin_getItem d "--out") (fun ov => ?_)
  refine ecin_bind _ _ (ecin_asStr ov) (fun s => ?_)
  cases pyEndsWith s ".vcf" <;> rfl

theorem ecin_gzSuffixStep (d : Dict) :
    exitCodeIsNone (gzSuffixStep d) = true := by
  unfold gzSuffixStep
  refine ecin_bind _ _ (ecin_getItem d "--unzipped") (fun uz => ?_)
  cases truthy uz
  · simp only [Bool.false_eq_true, if_false]
    refine ecin_bind _ _ (ecin_getItem d "--out") (fun ov => ?_)
    exact ecin_bind _ _ (ecin_asStr ov) (fun s => rfl)
  · rfl

theorem ecin_resolveTool (env : String → Option String) (d : Dict)
    (name : String) : exitCodeIsNone (resolveTool env d name) = true := by
  unfold resolveTool
  refine ecin_bind _ _ (ecin_getItem d _) (fun v => ?_)
  cases truthy v
  · simp only [Bool.false_eq_true, if_false]
    cases env (pyUpper ("path_to_" ++ name)) <;> rfl
  · rfl

theorem ecin_resolveTools (env : String → Option String) (names : List String) :
    ∀ d : Dict, exitCodeIsNone (resolveTools env d names) = true := by
  induction names with
  | nil => intro d; rfl
  | cons n rest ih =>
    intro d
    exact ecin_bind _ _ (ecin_resolveTool env d n) (fun d2 => ih d2)

theorem ecin_overwriteGuardStep (isfile : String → Bool) (d : Dict) :
    exitCodeIsNone (overwriteGuardStep isfile d) = true := by
  unfold overwriteGuardStep
  cases d.hasKey "--force"
  · simp only [Bool.false_eq_true, if_false]
    refine ecin_bind _ _ (ecin_getItem d "--out") (fun ov => ?_)
    refine ecin_bind _ _ (ecin_asStr ov) (fun s => ?_)
    cases isfile s <;> rfl
  · rfl

theorem ecin_parse (pinfo : PackageInfo) (env : String → Option String)
    (cwd : String) (isfile : String → Bool) (d : Dict) :
    exitCodeIsNone (parse_arguments pinfo env cwd isfile d) = true := by
  unfold parse_arguments
  refine ecin_bind _ _ (ecin_versionStep pinfo d) (fun _ => ?_)
  refine ecin_bind _ _ (ecin_threadsStep d) (fun d1 => ?_)
  refine ecin_bind _ _ (ecin_outDeriveStep cwd d1) (fun d2 => ?_)
  refine ecin_bind _ _ (ecin_vcfSuffixStep d2) (fun d3 => ?_)
  refine ecin_bind _ _ (ecin_gzSuffixStep d3) (fun d4 => ?_)
  refine ecin_bind _ _ (ecin_resolveTools env varnames d4) (fun d5 => ?_)
  exact ecin_overwriteGuardStep isfile d5

theorem ecin_run_pipeline (pa : PipelineArgs) (pipe : PipeOutcome) :
    exitCodeIsNone (run_pipeline pa pipe) = true := by
  cases pipe <;> rfl

theorem ecin_callRunPipeline (d : Dict) (pipe : PipeOutcome) :
    exitCodeIsNone (callRunPipeline d pipe) = true := by
  unfold callRunPipeline
  refine ecin_bind _ _ (ecin_getItem d "--in") (fun v1 => ?_)
  refine ecin_bind _ _ (ecin_getItem d "--threads") (fun v2 => ?_)
  refine ecin_bind _ _ (ecin_getItem d "--out") (fun v3 => ?_)
  refine ecin_bind _ _ (ecin_getItem d "--unzipped") (fun v4 => ?_)
  refine ecin_bind _ _ (ecin_getItem d "--dry-run") (fun v5 => ?_)
  refine ecin_bind _ _ (ecin_getItem d "--path-to-bcftools") (fun v6 => ?_)
  refine ecin_bind _ _ (ecin_getItem d "--path-to-java") (fun v7 => ?_)
  refine ecin_bind _ _ (ecin_getItem d "--path-to-tabix") (fun v8 => ?_)
  refine ecin_bind _ _ (ecin_getItem d "--path-to-gatk3") (fun v9 => ?_)
  refine ecin_bind _ _ (ecin_getItem d "--path-to-bgzip") (fun v10 => ?_)
  refine ecin_bind _ _ (ecin_getItem d "--path-to-reference-fasta") (fun v11 => ?_)
  exact ecin_run_pipeline _ pipe

theorem ecin_exceptClauses (r : Res Unit) (hr : exitCodeIsNone r = true) :
    exitCodeIsNone (exceptClauses r) = true := by
  unfold exceptClauses
  unfold exitCodeIsNone at hr ⊢
  cases hro : r.out with
  | ok a => simpa [hro] using hr
  | exited c => rw [hro] at hr; cases c <;> simp_all
  | raised e => cases e <;> simp_all

theorem ecin_finallyBlock (d : Dict) :
    exitCodeIsNone (finallyBlock d) = true := by
  unfold finallyBlock
  refine ecin_bind _ _ (ecin_getItem d "--no-cleanup") (fun nc => ?_)
  cases truthy nc <;> rfl

theorem ecin_pyTryFinally (body fin : Res Unit)
    (hb : exitCodeIsNone body = true) (hf : exitCodeIsNone fin = true) :
    exitCodeIsNone (pyTryFinally body fin) = true := by
  unfold pyTryFinally
  unfold exitCodeIsNone at *
  cases hfo : fin.out with
  | ok a => simpa [hfo] using hb
  | exited c => rw [hfo] at hf; cases c <;> simp_all
  | raised e => simp_all

theorem ecin_mainFn (pinfo : PackageInfo) (env : String → Option String)
    (cwd : String) (isfile : String → Bool) (rawArgs : Dict) (pipe : PipeOutcome) :
    exitCodeIsNone (mainFn pinfo env cwd isfile rawArgs pipe) = true := by
  unfold mainFn
  refine ecin_bind _ _ (ecin_parse pinfo env cwd isfile rawArgs) (fun args => ?_)
  refine ecin_bind _ _ (ecin_getItem args "--debug") (fun _ => ?_)
  exact ecin_pyTryFinally _ _
    (ecin_exceptClauses _ (ecin_callRunPipeline args pipe))
    (ecin_finallyBlock args)

/-! ### String suffix lemmas -/

theorem pyEndsWith_append (s t : String) : pyEndsWith (s ++ t) t = true := by
  unfold pyEndsWith
  rw [String.data_append]
  exact List.isSuffixOf_iff_suffix.mpr (List.suffix_append s.data t.data)

theorem pyEndsWith_mono_append (s t u : String) (h : pyEndsWith s t = true) :
    pyEndsWith (s ++ u) (t ++ u) = true := by
  unfold pyEndsWith at *
  rw [String.data_append, String.data_append]
  obtain ⟨w, hw⟩ := List.isSuffixOf_iff_suffix.mp h
  exact List.isSuffixOf_iff_suffix.mpr ⟨w, by rw [← List.append_assoc, hw]⟩

theorem vcfOut_endsWith (b : String) : pyEndsWith (vcfOut b) ".vcf" = true := by
  unfold vcfOut
  cases h : pyEndsWith b ".vcf"
  · simpa [h] using pyEndsWith_append b ".vcf"
  · simpa [h] using h

/-! ### The shape of `parse_arguments` on docopt mappings -/

theorem parse_toDict_shape (pinfo : PackageInfo) (env : String → Option String)
    (cwd : String) (isfile : String → Bool) (a : DocoptArgs) :
    parse_arguments pinfo env cwd isfile a.toDict = parseResultFn pinfo env cwd a := by
  by_cases hv : a.version = true
  · rw [parse_of_version pinfo env cwd isfile a.toDict (.bool a.version) rfl
      (by simp [truthy, hv])]
    simp [parseResultFn, hv]
  · have hv2 : a.version = false := by simpa using hv
    have stepTools : threadsOkOf a.threads = true →
        parse_arguments pinfo env cwd isfile a.toDict =
          parseAfterThreads env cwd a := by
      intro ht
      cases h1 : toolOk env a.pathToBcftools "PATH_TO_BCFTOOLS"
      · rw [parse_missing_bcftools pinfo env cwd isfile a hv2 ht h1]
        simp [parseAfterThreads, h1]
      · cases h2 : toolOk env a.pathToTabix "PATH_TO_TABIX"
        · rw [parse_missing_tabix pinfo env cwd isfile a hv2 ht h1 h2]
          simp [parseAfterThreads, h1, h2]
        · cases h3 : toolOk env a.pathToBgzip "PATH_TO_BGZIP"
          · rw [parse_missing_bgzip pinfo env cwd isfile a hv2 ht h1 h2 h3]
            simp [parseAfterThreads, h1, h2, h3]
          · cases h4 : toolOk env a.pathToGatk3 "PATH_TO_GATK3"
            · rw [parse_missing_gatk3 pinfo env cwd isfile a hv2 ht h1 h2 h3 h4]
              simp [parseAfterThreads, h1, h2, h3, h4]
            · cases h5 : toolOk env a.pathToJava "PATH_TO_JAVA"
              · rw [parse_missing_java pinfo env cwd isfile a hv2 ht h1 h2 h3 h4 h5]
                simp [parseAfterThreads, h1, h2, h3, h4, h5]
              · cases h6 : toolOk env a.pathToReferenceFasta "PATH_TO_REFERENCE_FASTA"
                · rw [parse_missing_referenceFasta pinfo env cwd isfile a hv2 ht
                    h1 h2 h3 h4 h5 h6]
                  simp [parseAfterThreads, h1, h2, h3, h4, h5, h6]
                · rw [parse_toDict_eval pinfo env cwd isfile a hv2 ht
                    (by simp [toolsOk, h1, h2, h3, h4, h5, h6])]
                  simp [parseAfterThreads, h1, h2, h3, h4, h5, h6]
    rcases hthr : a.threads with _ | s
    · rw [stepTools (by rw [hthr]; rfl)]
      simp [parseResultFn, hv2, hthr]
    · by_cases hs : (s == "") = true
      · rw [stepTools (by rw [hthr]; simp [threadsOkOf, hs])]
        simp [parseResultFn, hv2, hthr, hs]
      · rcases hp : pyInt s with _ | n
        · rw [parse_toDict_badThreads pinfo env cwd isfile a s hv2 hthr
            (by simpa using hs) hp]
          simp [parseResultFn, hv2, hthr, hs, hp]
        · rw [stepTools (by rw [hthr]; simp [threadsOkOf, hp])]
          simp [parseResultFn, hv2, hthr, hs, hp]

theorem checkOut_parseAfterThreads (env : String → Option String) (cwd : String)
    (a : DocoptArgs) :
    checkOutSuffix (parseAfterThreads env cwd a) a.unzipped = true := by
  unfold parseAfterThreads
  repeat' split
  any_goals rfl
  have hget : (resolvedDict env cwd a).get? "--out" =
      some (.str (outOf cwd a)) := rfl
  simp only [checkOutSuffix, Res.ret, hget]
  cases huz : a.unzipped
  · simp only [Bool.false_eq_true, if_false, outOf, huz, gzOut]
    exact pyEndsWith_mono_append _ ".vcf" ".gz" (vcfOut_endsWith _)
  · simp only [if_true, outOf, huz, gzOut]
    exact vcfOut_endsWith _

/-- C5: an external-process failure (`CalledProcessError` carrying the
failing command and exit code) raised by the pipeline is caught once at the
top of `main`, logged in a message showing the exit code and the command,
and is fatal: `main` exits (with no retry — `run_pipeline` appears exactly
once in the event trace) after the cleanup block runs. -/
theorem C5_called_process_error (pinfo : PackageInfo)
    (env : String → Option String) (cwd : String) (isfile : String → Bool)
    (a : DocoptArgs) (rc : Int) (cmd : String)
    (hv : a.version = false) (ht : threadsOkOf a.threads = true)
    (htools : toolsOk env a = true) :
    mainFn pinfo env cwd isfile a.toDict (.calledProcessError rc cmd) =
      ⟨[.runPipeline (pipelineArgsOf env cwd a), .logWarning (cpeMsg rc cmd)] ++
        finEvents a.noCleanup, .exited none⟩ := by
  rw [mainFn_toDict_eval pinfo env cwd isfile a (.calledProcessError rc cmd)
    hv ht htools]
  rfl

/-- Witness for C5 at a concrete run: exit code 2, command `tabix -h`. -/
theorem C5_called_process_error_witness :
    mainFn ⟨"p", "v", "d", "au", "u"⟩ (fun _ => none) "/cwd" (fun _ => false)
      (DocoptArgs.toDict ⟨["a.bed"], none, none, false, false, false, false,
        false, some "/b", some "/t", some "/g", some "/j", some "/k",
        some "/r", false, false⟩) (.calledProcessError 2 "tabix -h") =
      ⟨[.runPipeline (pipelineArgsOf (fun _ => none) "/cwd"
          ⟨["a.bed"], none, none, false, false, false, false, false,
            some "/b", some "/t", some "/g", some "/j", some "/k",
            some "/r", false, false⟩),
        .logWarning (cpeMsg 2 "tabix -h")] ++ finEvents false, .exited none⟩ :=
  C5_called_process_error ⟨"p", "v", "d", "au", "u"⟩ (fun _ => none) "/cwd"
    (fun _ => false)
    ⟨["a.bed"], none, none, false, false, false, false, false, some "/b",
      some "/t", some "/g", some "/j", some "/k", some "/r", false, false⟩
    2 "tabix -h" rfl rfl (by decide)

/-- C7: every process exit the embedded code can produce — version flag,
missing tool path, existing output without force, user interrupt,
external-process failure — is a bare `sys.exit()`: no exit path carries an
explicit exit code, for any argument mapping and any pipeline scenario. -/
theorem C7_exits_carry_no_code (pinfo : PackageInfo)
    (env : String → Option String) (cwd : String) (isfile : String → Bool)
    (d : Dict) (pipe : PipeOutcome) :
    exitCodeIsNone (parse_arguments pinfo env cwd isfile d) = true ∧
    exitCodeIsNone (mainFn pinfo env cwd isfile d pipe) = true :=
  ⟨ecin_parse pinfo env cwd isfile d, ecin_mainFn pinfo env cwd isfile d pipe⟩

/-- C8: docopt's mapping for this usage string always carries the
`'--force'` key, so the overwrite guard's `'--force' not in arguments` test
never fires: the result of `parse_arguments` is entirely independent of
which files exist, whether or not `--force` was given. -/
theorem C8_force_key_guard_unreachable (pinfo : PackageInfo)
    (env : String → Option String) (cwd : String)
    (isfile1 isfile2 : String → Bool) (a : DocoptArgs) :
    (a.toDict).hasKey "--force" = true ∧
    parse_arguments pinfo env cwd isfile1 a.toDict =
      parse_arguments pinfo env cwd isfile2 a.toDict := by
  refine ⟨rfl, ?_⟩
  rw [parse_toDict_shape pinfo env cwd isfile1 a,
    parse_toDict_shape pinfo env cwd isfile2 a]

/-- C9: whenever `parse_arguments` returns a mapping for a docopt input —
any user-supplied `--out` string included — the resolved output path ends
in `.vcf` under `--unzipped` and in `.vcf.gz` otherwise; suffixes are
appended, so the supplied path `x.vcf.gz` resolves to `x.vcf.gz.vcf.gz`. -/
theorem C9_output_suffix_invariant (pinfo : PackageInfo)
    (env : String → Option String) (cwd : String) (isfile : String → Bool)
    (a : DocoptArgs) :
    checkOutSuffix (parse_arguments pinfo env cwd isfile a.toDict) a.unzipped = true ∧
    entryOf (parse_arguments ⟨"p", "v", "d", "au", "u"⟩ (fun _ => none) "/cwd"
      (fun _ => false)
      (DocoptArgs.toDict ⟨["a.bed"], some "x.vcf.gz", none, false, false,
        false, false, false, some "/b", some "/t", some "/g", some "/j",
        some "/k", some "/r", false, false⟩)) "--out" =
      some (.str "x.vcf.gz.vcf.gz") := by
  constructor
  · rw [parse_toDict_shape pinfo env cwd isfile a]
    unfold parseResultFn
    by_cases hv : a.version = true
    · simp [hv, checkOutSuffix]
    · have hv2 : a.version = false := by simpa using hv
      rcases hthr : a.threads with _ | s
      · simp only [hv2, Bool.false_eq_true, if_false]
        exact checkOut_parseAfterThreads env cwd a
      · simp only [hv2, Bool.false_eq_true, if_false]
        by_cases hs : (s == "") = true
        · simp only [hs, if_true]
          exact checkOut_parseAfterThreads env cwd a
        · simp only [hs, Bool.false_eq_true, if_false]
          rcases hp : pyInt s with _ | n
          · rfl
          · exact checkOut_parseAfterThreads env cwd a
  · decide

/-- C10: the output-name derivation removes every occurrence of `.bed`
anywhere in each input basename, not only a trailing extension:
`my.bedfile.bed` contributes `myfile` and `x.bed.bed` contributes `x`. -/
theorem C10_strip_bed_everywhere :
    entryOf (parse_arguments ⟨"p", "v", "d", "au", "u"⟩ (fun _ => none) "/cwd"
      (fun _ => false)
      (DocoptArgs.toDict ⟨["my.bedfile.bed"], none, none, false, false, false,
        false, false, some "/b", some "/t", some "/g", some "/j", some "/k",
        some "/r", false, false⟩)) "--out" =
      some (.str "/cwd/myfile.vcf.gz") ∧
    entryOf (parse_arguments ⟨"p", "v", "d", "au", "u"⟩ (fun _ => none) "/cwd"
      (fun _ => false)
      (DocoptArgs.toDict ⟨["x.bed.bed"], none, none, false, false, false,
        false, false, some "/b", some "/t", some "/g", some "/j", some "/k",
        some "/r", false, false⟩)) "--out" =
      some (.str "/cwd/x.vcf.gz") ∧
    pyReplace (pyBasename "my.bedfile.bed") ".bed" "" = "myfile" ∧
    pyReplace (pyBasename "x.bed.bed") ".bed" "" = "x" := by
  decide

/-- C1: if the `'--force'` key is absent from the argument mapping and the
file at the resolved output path exists, `parse_arguments` logs the
overwrite warning and exits, the pipeline runner is never invoked; and when
the checked condition (key absence) is not satisfied — every docopt
mapping carries the key — resolution proceeds and returns the mapping. -/
theorem C1_overwrite_guard (pinfo : PackageInfo) (env : String → Option String)
    (cwd : String) (isfile : String → Bool) (a : DocoptArgs) (pipe : PipeOutcome)
    (hv : a.version = false) (ht : threadsOkOf a.threads = true)
    (htools : toolsOk env a = true) (hfile : isfile (outOf cwd a) = true) :
    parse_arguments pinfo env cwd isfile a.toDictNoForce =
      ⟨[.logWarning (guardMsg (outOf cwd a))], .exited none⟩ ∧
    mainFn pinfo env cwd isfile a.toDictNoForce pipe =
      ⟨[.logWarning (guardMsg (outOf cwd a))], .exited none⟩ ∧
    (∀ pa : PipelineArgs,
      Event.runPipeline pa ∉ (mainFn pinfo env cwd isfile a.toDictNoForce pipe).events) ∧
    (parse_arguments pinfo env cwd isfile a.toDict).out = .ok (resolvedDict env cwd a) := by
  have hparse := parse_noForce_guard pinfo env cwd isfile a hv ht htools hfile
  have hmain : mainFn pinfo env cwd isfile a.toDictNoForce pipe =
      ⟨[.logWarning (guardMsg (outOf cwd a))], .exited none⟩ := by
    rw [mainFn, hparse]; rfl
  refine ⟨hparse, hmain, ?_, ?_⟩
  · intro pa; rw [hmain]; simp
  · rw [parse_toDict_eval pinfo env cwd isfile a hv ht htools]; rfl

/-- Witness for C1 at a concrete forceless mapping over an existing file. -/
theorem C1_overwrite_guard_witness :
    parse_arguments ⟨"p", "v", "d", "au", "u"⟩ (fun _ => none) "/cwd"
      (fun _ => true)
      (DocoptArgs.toDictNoForce ⟨["a.bed"], none, none, false, false, false,
        false, false, some "/b", some "/t", some "/g", some "/j", some "/k",
        some "/r", false, false⟩) =
      ⟨[.logWarning (guardMsg (outOf "/cwd" ⟨["a.bed"], none, none, false,
        false, false, false, false, some "/b", some "/t", some "/g",
        some "/j", some "/k", some "/r", false, false⟩))], .exited none⟩ :=
  (C1_overwrite_guard ⟨"p", "v", "d", "au", "u"⟩ (fun _ => none) "/cwd"
    (fun _ => true)
    ⟨["a.bed"], none, none, false, false, false, false, false, some "/b",
      some "/t", some "/g", some "/j", some "/k", some "/r", false, false⟩
    .success rfl rfl (by decide) rfl).1

/-- Counterexample to C2 as stated: for the input `a.vcf.bed` the stripped
basename `a.vcf` already ends in `.vcf`, so the code does not append
another `.vcf`; the resolved path differs from the claim's formula. -/
theorem C2_counterexample :
    entryOf (parse_arguments ⟨"p", "v", "d", "au", "u"⟩ (fun _ => none) "/cwd"
      (fun _ => false)
      (DocoptArgs.toDict ⟨["a.vcf.bed"], none, none, false, false, false,
        false, false, some "/b", some "/t", some "/g", some "/j", some "/k",
        some "/r", false, false⟩)) "--out" = some (.str "/cwd/a.vcf.gz") ∧
    pyJoin "/cwd" (pyReplace (pyBasename "a.vcf.bed") ".bed" "") ++ ".vcf" ++ ".gz" =
      "/cwd/a.vcf.vcf.gz" ∧
    ("/cwd/a.vcf.gz" : String) ≠ "/cwd/a.vcf.vcf.gz" := by
  decide

/-- C2 (amended): with inputs and no explicit output path the derived path
is the working directory joined with the underscore-joined, `.bed`-stripped
basenames, followed by `.vcf` unless the joined name already ends in
`.vcf`, and additionally by `.gz` unless `--unzipped` is set. -/
theorem C2_derived_output_path (pinfo : PackageInfo)
    (env : String → Option String) (cwd : String) (isfile : String → Bool)
    (a : DocoptArgs) (hout : a.out = none) (hin : a.inFiles ≠ [])
    (hv : a.version = false) (ht : threadsOkOf a.threads = true)
    (htools : toolsOk env a = true) :
    parse_arguments pinfo env cwd isfile a.toDict =
      Res.ret (resolvedDict env cwd a) ∧
    (resolvedDict env cwd a).get? "--out" =
      some (.str (specDerivedOut cwd a.inFiles a.unzipped)) := by
  refine ⟨parse_toDict_eval pinfo env cwd isfile a hv ht htools, ?_⟩
  have hbase : (resolvedDict env cwd a).get? "--out" =
      some (.str (outOf cwd a)) := rfl
  rw [hbase]
  simp [outOf, hout, baseOutOf, specDerivedOut, deriveOutName, vcfOut, gzOut]

/-- Witness for C2: `--in a.bed --in b.bed` yields `<cwd>/a__b.vcf.gz`,
and with `--unzipped` the suffix is `.vcf` only. -/
theorem C2_derived_output_path_witness :
    (resolvedDict (fun _ => none) "/cwd" ⟨["a.bed", "b.bed"], none, none,
      false, false, false, false, false, some "/b", some "/t", some "/g",
      some "/j", some "/k", some "/r", false, false⟩).get? "--out" =
      some (.str (specDerivedOut "/cwd" ["a.bed", "b.bed"] false)) ∧
    specDerivedOut "/cwd" ["a.bed", "b.bed"] false = "/cwd/a__b.vcf.gz" ∧
    specDerivedOut "/cwd" ["a.bed", "b.bed"] true = "/cwd/a__b.vcf" :=
  ⟨(C2_derived_output_path ⟨"p", "v", "d", "au", "u"⟩ (fun _ => none) "/cwd"
      (fun _ => false)
      ⟨["a.bed", "b.bed"], none, none, false, false, false, false, false,
        some "/b", some "/t", some "/g", some "/j", some "/k", some "/r",
        false, false⟩ rfl (by decide) rfl rfl (by decide)).2,
   by decide, by decide⟩

/-- Counterexample to C3 as stated: an explicitly given but empty
`--path-to-bcftools` flag is not used as the resolved value; the
environment variable wins instead. -/
theorem C3_counterexample :
    entryOf (parse_arguments ⟨"p", "v", "d", "au", "u"⟩
      (fun k => if k == "PATH_TO_BCFTOOLS" then some "/envbcf" else none)
      "/cwd" (fun _ => false)
      (DocoptArgs.toDict ⟨["a.bed"], none, none, false, false, false, false,
        false, some "", some "/t", some "/g", some "/j", some "/k",
        some "/r", false, false⟩)) "--path-to-bcftools" =
      some (.str "/envbcf") ∧
    ("/envbcf" : String) ≠ "" := by
  decide

/-- C3 (amended): each of the six tool paths resolves to the CLI flag when
given with a non-empty value, else to the `PATH_TO_<TOOL>` environment
variable; when both are missing, the first such tool in the order
bcftools, tabix, bgzip, gatk3, java, reference_fasta prints a single
message naming the flag and the variable and the program exits at once,
reporting no further tools. -/
theorem C3_tool_path_resolution (pinfo : PackageInfo)
    (env : String → Option String) (cwd : String) (isfile : String → Bool)
    (a : DocoptArgs)
    (hv : a.version = false) (ht : threadsOkOf a.threads = true) :
    (toolsOk env a = true →
      parse_arguments pinfo env cwd isfile a.toDict =
        Res.ret (resolvedDict env cwd a) ∧
      (resolvedDict env cwd a).get? "--path-to-bcftools" =
        some (.str (toolValue env a.pathToBcftools "PATH_TO_BCFTOOLS")) ∧
      (resolvedDict env cwd a).get? "--path-to-tabix" =
        some (.str (toolValue env a.pathToTabix "PATH_TO_TABIX")) ∧
      (resolvedDict env cwd a).get? "--path-to-bgzip" =
        some (.str (toolValue env a.pathToBgzip "PATH_TO_BGZIP")) ∧
      (resolvedDict env cwd a).get? "--path-to-gatk3" =
        some (.str (toolValue env a.pathToGatk3 "PATH_TO_GATK3")) ∧
      (resolvedDict env cwd a).get? "--path-to-java" =
        some (.str (toolValue env a.pathToJava "PATH_TO_JAVA")) ∧
      (resolvedDict env cwd a).get? "--path-to-reference-fasta" =
        some (.str (toolValue env a.pathToReferenceFasta "PATH_TO_REFERENCE_FASTA"))) ∧
    (toolOk env a.pathToBcftools "PATH_TO_BCFTOOLS" = false →
      parse_arguments pinfo env cwd isfile a.toDict =
        ⟨[.print "Missing either --path-to-bcftools or ENV variable PATH_TO_BCFTOOLS"],
          .exited none⟩) ∧
    (toolOk env a.pathToBcftools "PATH_TO_BCFTOOLS" = true →
      toolOk env a.pathToTabix "PATH_TO_TABIX" = false →
      parse_arguments pinfo env cwd isfile a.toDict =
        ⟨[.print "Missing either --path-to-tabix or ENV variable PATH_TO_TABIX"],
          .exited none⟩) ∧
    (toolOk env a.pathToBcftools "PATH_TO_BCFTOOLS" = true →
      toolOk env a.pathToTabix "PATH_TO_TABIX" = true →
      toolOk env a.pathToBgzip "PATH_TO_BGZIP" = false →
      parse_arguments pinfo env cwd isfile a.toDict =
        ⟨[.print "Missing either --path-to-bgzip or ENV variable PATH_TO_BGZIP"],
          .exited none⟩) ∧
    (toolOk env a.pathToBcftools "PATH_TO_BCFTOOLS" = true →
      toolOk env a.pathToTabix "PATH_TO_TABIX" = true →
      toolOk env a.pathToBgzip "PATH_TO_BGZIP" = true →
      toolOk env a.pathToGatk3 "PATH_TO_GATK3" = false →
      parse_arguments pinfo env cwd isfile a.toDict =
        ⟨[.print "Missing either --path-to-gatk3 or ENV variable PATH_TO_GATK3"],
          .exited none⟩) ∧
    (toolOk env a.pathToBcftools "PATH_TO_BCFTOOLS" = true →
      toolOk env a.pathToTabix "PATH_TO_TABIX" = true →
      toolOk env a.pathToBgzip "PATH_TO_BGZIP" = true →
      toolOk env a.pathToGatk3 "PATH_TO_GATK3" = true →
      toolOk env a.pathToJava "PATH_TO_JAVA" = false →
      parse_arguments pinfo env cwd isfile a.toDict =
        ⟨[.print "Missing either --path-to-java or ENV variable PATH_TO_JAVA"],
          .exited none⟩) ∧
    (toolOk env a.pathToBcftools "PATH_TO_BCFTOOLS" = true →
      toolOk env a.pathToTabix "PATH_TO_TABIX" = true →
      toolOk env a.pathToBgzip "PATH_TO_BGZIP" = true →
      toolOk env a.pathToGatk3 "PATH_TO_GATK3" = true →
      toolOk env a.pathToJava "PATH_TO_JAVA" = true →
      toolOk env a.pathToReferenceFasta "PATH_TO_REFERENCE_FASTA" = false →
      parse_arguments pinfo env cwd isfile a.toDict =
        ⟨[.print "Missing either --path-to-reference-fasta or ENV variable PATH_TO_REFERENCE_FASTA"],
          .exited none⟩) :=
  ⟨fun htools => ⟨parse_toDict_eval pinfo env cwd isfile a hv ht htools,
    rfl, rfl, rfl, rfl, rfl, rfl⟩,
   fun hm => parse_missing_bcftools pinfo env cwd isfile a hv ht hm,
   fun h1 hm => parse_missing_tabix pinfo env cwd isfile a hv ht h1 hm,
   fun h1 h2 hm => parse_missing_bgzip pinfo env cwd isfile a hv ht h1 h2 hm,
   fun h1 h2 h3 hm => parse_missing_gatk3 pinfo env cwd isfile a hv ht h1 h2 h3 hm,
   fun h1 h2 h3 h4 hm => parse_missing_java pinfo env cwd isfile a hv ht h1 h2 h3 h4 hm,
   fun h1 h2 h3 h4 h5 hm =>
     parse_missing_referenceFasta pinfo env cwd isfile a hv ht h1 h2 h3 h4 h5 hm⟩

/-- Witness for C3: with bcftools given and tabix missing from both flag
and environment, the program halts naming exactly the tabix flag and
variable. -/
theorem C3_tool_path_resolution_witness :
    parse_arguments ⟨"p", "v", "d", "au", "u"⟩ (fun _ => none) "/cwd"
      (fun _ => false)
      (DocoptArgs.toDict ⟨["a.bed"], none, none, false, false, false, false,
        false, some "/b", none, some "/g", some "/j", some "/k", some "/r",
        false, false⟩) =
      ⟨[.print "Missing either --path-to-tabix or ENV variable PATH_TO_TABIX"],
        .exited none⟩ :=
  (C3_tool_path_resolution ⟨"p", "v", "d", "au", "u"⟩ (fun _ => none) "/cwd"
    (fun _ => false)
    ⟨["a.bed"], none, none, false, false, false, false, false, some "/b",
      none, some "/g", some "/j", some "/k", some "/r", false, false⟩
    rfl rfl).2.2.1 (by decide) (by decide)

/-- Counterexample to C4 as stated: with `--version` (and `--no-cleanup`
not set) the program exits during argument parsing, before the try/finally
block, and cleanup is never attempted on this exit path. -/
theorem C4_counterexample :
    mainFn ⟨"p", "v", "d", "au", "u"⟩ (fun _ => none) "/cwd" (fun _ => false)
      (DocoptArgs.toDict ⟨["a.bed"], none, none, false, false, false, false,
        false, some "/b", some "/t", some "/g", some "/j", some "/k",
        some "/r", false, true⟩) .success =
      ⟨[.print (versionMsg ⟨"p", "v", "d", "au", "u"⟩)], .exited none⟩ ∧
    Event.cleanupTempFiles ∉
      (mainFn ⟨"p", "v", "d", "au", "u"⟩ (fun _ => none) "/cwd" (fun _ => false)
        (DocoptArgs.toDict ⟨["a.bed"], none, none, false, false, false, false,
          false, some "/b", some "/t", some "/g", some "/j", some "/k",
          some "/r", false, true⟩) .success).events ∧
    (⟨["a.bed"], none, none, false, false, false, false, false, some "/b",
      some "/t", some "/g", some "/j", some "/k", some "/r", false, true⟩ :
        DocoptArgs).noCleanup = false := by
  decide

/-- C4 (amended): once argument resolution succeeds, cleanup is attempted
on every exit path of the run — success, external-process failure, or user
interrupt — through the finally block, except when `--no-cleanup` is set,
in which case the skip is logged instead; exits during argument parsing
itself (such as `--version`) happen before the try/finally and run no
cleanup. -/
theorem C4_cleanup_on_every_run_path (pinfo : PackageInfo)
    (env : String → Option String) (cwd : String) (isfile : String → Bool)
    (a : DocoptArgs) (pipe : PipeOutcome)
    (hv : a.version = false) (ht : threadsOkOf a.threads = true)
    (htools : toolsOk env a = true) :
    (a.noCleanup = false →
      Event.cleanupTempFiles ∈
        (mainFn pinfo env cwd isfile a.toDict pipe).events) ∧
    (a.noCleanup = true →
      Event.cleanupTempFiles ∉
        (mainFn pinfo env cwd isfile a.toDict pipe).events ∧
      Event.logInfo "No cleanup requested, leaving the temp files." ∈
        (mainFn pinfo env cwd isfile a.toDict pipe).events) := by
  rw [mainFn_toDict_eval pinfo env cwd isfile a pipe hv ht htools]
  constructor
  · intro hnc
    cases pipe <;> simp [pipeEvents, finEvents, hnc]
  · intro hnc
    cases pipe <;> simp [pipeEvents, finEvents, hnc]

/-- Witness for C4 at a concrete interrupted run without `--no-cleanup`. -/
theorem C4_cleanup_on_every_run_path_witness :
    Event.cleanupTempFiles ∈
      (mainFn ⟨"p", "v", "d", "au", "u"⟩ (fun _ => none) "/cwd" (fun _ => false)
        (DocoptArgs.toDict ⟨["a.bed"], none, none, false, false, false, false,
          false, some "/b", some "/t", some "/g", some "/j", some "/k",
          some "/r", false, false⟩) .keyboardInterrupt).events :=
  (C4_cleanup_on_every_run_path ⟨"p", "v", "d", "au", "u"⟩ (fun _ => none)
    "/cwd" (fun _ => false)
    ⟨["a.bed"], none, none, false, false, false, false, false, some "/b",
      some "/t", some "/g", some "/j", some "/k", some "/r", false, false⟩
    .keyboardInterrupt rfl rfl (by decide)).1 rfl

/-- Counterexample to C6 as stated: `--threads ''` is a present flag whose
non-numeric value would make `int('')` raise, yet the code's truthiness
test routes it to the default instead: the result is 6 and no error is
raised. -/
theorem C6_counterexample :
    entryOf (parse_arguments ⟨"p", "v", "d", "au", "u"⟩ (fun _ => none) "/cwd"
      (fun _ => false)
      (DocoptArgs.toDict ⟨["a.bed"], none, some "", false, false, false,
        false, false, some "/b", some "/t", some "/g", some "/j", some "/k",
        some "/r", false, false⟩)) "--threads" = some (.int 6) ∧
    pyInt "" = none ∧
    (parse_arguments ⟨"p", "v", "d", "au", "u"⟩ (fun _ => none) "/cwd"
      (fun _ => false)
      (DocoptArgs.toDict ⟨["a.bed"], none, some "", false, false, false,
        false, false, some "/b", some "/t", some "/g", some "/j", some "/k",
        some "/r", false, false⟩)).out ≠ .raised (.valueError "") := by
  decide

/-- C6 (amended): the thread count is the integer parse of `--threads`
when the flag is present with a non-empty value; it defaults to 6 when the
flag is absent or empty (falsy); a non-empty non-numeric value — ASCII,
the domain on which `pyInt` coincides with Python's `int()` — raises a
`ValueError` that propagates uncaught. -/
theorem C6_thread_count (pinfo : PackageInfo) (env : String → Option String)
    (cwd : String) (isfile : String → Bool) (a : DocoptArgs)
    (hv : a.version = false) :
    (∀ s, a.threads = some s →
      s.data.all (fun c => decide (c.toNat ≤ 127)) = true →
      (s == "") = false → pyInt s = none →
      parse_arguments pinfo env cwd isfile a.toDict =
        ⟨[], .raised (.valueError s)⟩) ∧
    (toolsOk env a = true →
      (a.threads = none →
        entryOf (parse_arguments pinfo env cwd isfile a.toDict) "--threads" =
          some (.int 6)) ∧
      (∀ s, a.threads = some s → (s == "") = true →
        entryOf (parse_arguments pinfo env cwd isfile a.toDict) "--threads" =
          some (.int 6)) ∧
      (∀ s n, a.threads = some s → pyInt s = some n → (s == "") = false →
        entryOf (parse_arguments pinfo env cwd isfile a.toDict) "--threads" =
          some (.int n))) := by
  constructor
  · intro s hthr _hascii hs hp
    exact parse_toDict_badThreads pinfo env cwd isfile a s hv hthr hs hp
  · intro htools
    have hentry : ∀ _ : threadsOkOf a.threads = true,
        entryOf (parse_arguments pinfo env cwd isfile a.toDict) "--threads" =
          some (.int (resolvedThreadsOf a.threads)) := by
      intro ht
      rw [entryOf, parse_toDict_eval pinfo env cwd isfile a hv ht htools]
      rfl
    refine ⟨?_, ?_, ?_⟩
    · intro hthr
      rw [hentry (by rw [hthr]; rfl), hthr]
      rfl
    · intro s hthr hs
      rw [hentry (by rw [hthr]; simp [threadsOkOf, hs]), hthr]
      simp [resolvedThreadsOf, hs]
    · intro s n hthr hp hs
      rw [hentry (by rw [hthr]; simp [threadsOkOf, hp]), hthr]
      simp [resolvedThreadsOf, hs, hp]

/-- Witness for C6: `--threads 8` resolves to the integer 8. -/
theorem C6_thread_count_witness :
    entryOf (parse_arguments ⟨"p", "v", "d", "au", "u"⟩ (fun _ => none) "/cwd"
      (fun _ => false)
      (DocoptArgs.toDict ⟨["a.bed"], none, some "8", false, false, false,
        false, false, some "/b", some "/t", some "/g", some "/j", some "/k",
        some "/r", false, false⟩)) "--threads" = some (.int 8) :=
  ((C6_thread_count ⟨"p", "v", "d", "au", "u"⟩ (fun _ => none) "/cwd"
    (fun _ => false)
    ⟨["a.bed"], none, some "8", false, false, false, false, false, some "/b",
      some "/t", some "/g", some "/j", some "/k", some "/r", false, false⟩
    rfl).2 (by decide)).2.2 "8" 8 rfl (by decide) (by decide)
